import Mathlib

/-!
Verification development for the EvoWorld 2D artificial-life simulation.

JavaScript numbers are modelled as rationals (ℚ).  The transcendental
library functions (Math.sqrt, Math.cos, Math.sin, Math.atan2) and the
pseudo-random source Math.random are modelled as components of an
explicit environment `Env`; every theorem quantifies over the
environment (or constrains it with the properties the real functions
enjoy, e.g. Math.sqrt is non-negative).  Entity objects, which are
aliased freely in the JavaScript source, are modelled heap-style: the
engine state keeps stores `ℕ → Critter` / `ℕ → Food` and the arrays and
grid cells hold entity ids.
-/

namespace EvoWorld

/-- JavaScript `Math.*` environment: abstract transcendental functions and
the stream of `Math.random()` results (indexed by call count). -/
structure Env where
  sqrt : ℚ → ℚ
  cosQ : ℚ → ℚ
  sinQ : ℚ → ℚ
  atan2 : ℚ → ℚ → ℚ
  piQ : ℚ
  rand : ℕ → ℚ

/-- `Math.round`: round half toward positive infinity. -/
def jsRound (q : ℚ) : ℤ := ⌊q + 1/2⌋

/-- JavaScript `a % m` for non-negative `a` and positive `m`. -/
def jsMod (a m : ℚ) : ℚ := a - m * ⌊a / m⌋

/-! ## Constants (src/constants.ts) -/

def WORLD_WIDTH : ℚ := 4000
def WORLD_HEIGHT : ℚ := 4000
def GRID_CELL_SIZE : ℚ := 100
/-- `Math.ceil(WORLD_WIDTH / GRID_CELL_SIZE)` = 40. -/
def GRID_COLS : ℤ := 40
def GRID_ROWS : ℤ := 40

def BIOME_THRESHOLDS_DEEP_OCEAN : ℚ := 25/100
def BIOME_THRESHOLDS_OCEAN : ℚ := 45/100
def BIOME_THRESHOLDS_BEACH : ℚ := 50/100
def BIOME_THRESHOLDS_MOUNTAIN : ℚ := 85/100

def TERRAIN_SCALE : ℚ := 15/10000

def BIOME_WATER_WIDTH : ℚ := 1400
def BIOME_FOREST_WIDTH : ℚ := 1000
def BIOME_FOREST_FRICTION : ℚ := 85/100
def BIOME_SCRUB_FRICTION : ℚ := 98/100
def BIOME_WATER_DRAG : ℚ := 92/100
def BIOME_WATER_GROWTH : ℚ := 30
def BIOME_FOREST_GROWTH : ℚ := 13/100
def BIOME_SCRUB_GROWTH : ℚ := 39/1000

def INITIAL_POPULATION : ℕ := 60
def MAX_POPULATION : ℕ := 1500
def MAX_FOOD : ℕ := 35000

def ENERGY_COST_MOVE_BASE : ℚ := 2/100
def ENERGY_COST_PER_LIMB : ℚ := 5/1000
def ENERGY_COST_MOUTH_SIZE : ℚ := 1/100
def ENERGY_COST_EXIST : ℚ := 2/100
def ENERGY_COST_DEFENSE : ℚ := 3/100
def ENERGY_COST_RESTING_MULTIPLIER : ℚ := 3/10
def ENERGY_GAIN_FOOD : ℚ := 100
def ENERGY_GAIN_MEAT_MULTIPLIER : ℚ := 1
def STARTING_ENERGY : ℚ := 300
def SUFFOCATION_PENALTY : ℚ := 1/2
def SPECIATION_THRESHOLD : ℚ := 1/2
def GENETIC_DRIFT_RATE : ℚ := 1/10
def GENETIC_DRIFT_SCALE : ℚ := 5/1000

/-- A `{RATE, VARIANCE}` entry of MUTATION_CONFIG. -/
structure MutCfg where
  rate : ℚ
  variance : ℚ

def CFG_SPEED : MutCfg := ⟨2/10, 1/10⟩
def CFG_SIZE : MutCfg := ⟨2/10, 1/10⟩
def CFG_SENSE : MutCfg := ⟨2/10, 1/10⟩
def CFG_DIET : MutCfg := ⟨2/10, 25/100⟩
def CFG_LIMB_COUNT : MutCfg := ⟨15/100, 1⟩
def CFG_LIMB_LENGTH : MutCfg := ⟨2/10, 2/10⟩
def CFG_MOUTH_SIZE : MutCfg := ⟨2/10, 2/10⟩
def CFG_AMPHIBIOUS : MutCfg := ⟨2/10, 15/100⟩
def CFG_REPRO_THRESHOLD : MutCfg := ⟨2/10, 15/100⟩
def CFG_DEFENSE : MutCfg := ⟨15/100, 25/100⟩

/-! ## Data model (src/types.ts) -/

/-- HSL colors are produced and re-parsed by the source through the string
`hsl(h, s%, l%)` with integer components; we model the triple directly. -/
structure Hsl where
  h : ℤ
  s : ℤ
  l : ℤ
  deriving DecidableEq, Repr

structure Genome where
  speed : ℚ
  size : ℚ
  senseRadius : ℚ
  reproThreshold : ℚ
  color : Hsl
  diet : ℚ
  amphibious : ℚ
  defense : ℚ
  limbCount : ℚ
  limbLength : ℚ
  mouthSize : ℚ
  deriving DecidableEq, Repr

def BASE_GENOME : Genome :=
  { speed := 2, size := 8, senseRadius := 100, reproThreshold := 150,
    color := ⟨200, 70, 50⟩, diet := 0, amphibious := 0, defense := 0,
    limbCount := 2, limbLength := 5, mouthSize := 3 }

/-- Species ids: the source uses the strings `species_${n.toString(36)}`
with `n` drawn from the engine's id counter (base-36 rendering is
injective), so a species key is modelled by the number `n`; the root
lineage `species_0` is `0`. -/
structure Species where
  id : ℕ
  parentId : Option ℕ
  generation : ℕ
  color : Hsl
  count : ℤ
  extinct : Bool
  firstAppearedAt : ℕ
  deriving DecidableEq, Repr

inductive CState where
  | wandering | seeking_food | fleeing | hunting | resting
  deriving DecidableEq, Repr

structure Critter where
  id : ℕ
  speciesId : ℕ
  px : ℚ
  py : ℚ
  vx : ℚ
  vy : ℚ
  energy : ℚ
  age : ℕ
  genome : Genome
  cstate : CState
  targetId : Option ℕ
  targetPos : Option (ℚ × ℚ)
  nextThinkTime : ℚ
  heading : ℚ
  gridIndex : ℕ
  deriving DecidableEq, Repr

structure Food where
  id : ℕ
  px : ℚ
  py : ℚ
  energyValue : ℚ
  age : ℕ
  gridIndex : ℕ
  deriving DecidableEq, Repr

inductive BiomeType where
  | deep_ocean | ocean | beach | plains | forest | jungle | mountain
  deriving DecidableEq, Repr

/-! ## Spatial hash (src/core/SpatialHash.ts) -/

namespace SpatialHash

/-- `getIndex` before the final array indexing, kept in ℤ:
clamped column plus clamped row times the column count. -/
def getIndexZ (x y : ℚ) : ℤ :=
  let col : ℤ := ⌊x / GRID_CELL_SIZE⌋
  let row : ℤ := ⌊y / GRID_CELL_SIZE⌋
  let c : ℤ := max 0 (min (GRID_COLS - 1) col)
  let r : ℤ := max 0 (min (GRID_ROWS - 1) row)
  c + r * GRID_COLS

/-- `SpatialHash.getIndex(pos)`, as the natural number used to index
the cell array. -/
def getIndex (x y : ℚ) : ℕ := (getIndexZ x y).toNat

/-- An entity as the spatial hash sees it (position, id, cached cell). -/
structure Entity where
  eid : ℕ
  ex : ℚ
  ey : ℚ
  eGridIndex : ℕ
  deriving DecidableEq, Repr

/-- The cell array: `GRID_COLS * GRID_ROWS` buckets of entities. -/
abbrev Hash := List (List Entity)

/-- `clear()`: every bucket empty. -/
def emptyHash : Hash := List.replicate 1600 []

/-- `add(item)`: compute the index from the position, cache it on the
item, push into the bucket.  Returns the updated hash and item. -/
def add (h : Hash) (e : Entity) : Hash × Entity :=
  let idx := getIndex e.ex e.ey
  let e' := { e with eGridIndex := idx }
  (h.set idx ((h.getD idx []) ++ [e']), e')

/-- `remove(item)`: drop the item (first occurrence, by identity — ids
are unique in the engine) from the bucket it is cached in. -/
def remove (h : Hash) (e : Entity) : Hash :=
  let idx := e.eGridIndex
  h.set idx ((h.getD idx []).eraseP (fun x => x.eid = e.eid))

/-- `updateSpatialIndex(item)`: no-op if the cell is unchanged, else
remove from the old bucket and push into the new one. -/
def updateSpatialIndex (h : Hash) (e : Entity) : Hash × Entity :=
  let newIdx := getIndex e.ex e.ey
  if newIdx ≠ e.eGridIndex then
    let h' := remove h e
    let e' := { e with eGridIndex := newIdx }
    (h'.set newIdx ((h'.getD newIdx []) ++ [e']), e')
  else (h, e)

/-- The cell indices the `query(centerIdx)` double loop visits
(row-major over the in-bounds 3×3 neighborhood). -/
def queryIdxs (centerIdx : ℕ) : List ℕ :=
  let col : ℤ := (centerIdx : ℤ) % GRID_COLS
  let row : ℤ := (centerIdx : ℤ) / GRID_COLS
  ([-1, 0, 1] : List ℤ).flatMap (fun dy =>
    ([-1, 0, 1] : List ℤ).filterMap (fun dx =>
      let nc := col + dx
      let nr := row + dy
      if 0 ≤ nc ∧ nc < GRID_COLS ∧ 0 ≤ nr ∧ nr < GRID_ROWS then
        some (nc + nr * GRID_COLS).toNat
      else none))

/-- `query(centerIdx)`: all entities in the 3×3 neighborhood. -/
def query (h : Hash) (centerIdx : ℕ) : List Entity :=
  (queryIdxs centerIdx).flatMap (fun i => h.getD i [])

end SpatialHash

/-! ## Terrain generator (src/core/TerrainSystem.ts) -/

namespace TerrainSystem

/-- The 12 gradient vectors `grad3` (only the first two components are
used by the 2D `dot`). -/
def grad3 : List (ℤ × ℤ) :=
  [(1,1), (-1,1), (1,-1), (-1,-1),
   (1,0), (-1,0), (1,0), (-1,0),
   (0,1), (0,-1), (0,1), (0,-1)]

def dot (g : ℤ × ℤ) (x y : ℚ) : ℚ := g.1 * x + g.2 * y

def mix (a b t : ℚ) : ℚ := (1 - t) * a + t * b

def fade (t : ℚ) : ℚ := t * t * t * (t * (t * 6 - 15) + 10)

/-- 2D Perlin noise over a permutation table `perm` (512 entries in the
source; out-of-range reads yield the default 0). -/
def noise (perm : List ℕ) (x y : ℚ) : ℚ :=
  let X : ℕ := ((⌊x⌋ : ℤ).emod 256).toNat
  let Y : ℕ := ((⌊y⌋ : ℤ).emod 256).toNat
  let xf : ℚ := x - ⌊x⌋
  let yf : ℚ := y - ⌊y⌋
  let u := fade xf
  let v := fade yf
  let A := perm.getD X 0 + Y
  let B := perm.getD (X + 1) 0 + Y
  mix
    (mix (dot (grad3.getD (perm.getD A 0 % 12) (0,0)) xf yf)
         (dot (grad3.getD (perm.getD B 0 % 12) (0,0)) (xf - 1) yf) u)
    (mix (dot (grad3.getD (perm.getD (A + 1) 0 % 12) (0,0)) xf (yf - 1))
         (dot (grad3.getD (perm.getD (B + 1) 0 % 12) (0,0)) (xf - 1) (yf - 1)) u)
    v

/-- `getElevation`: three octaves, normalized to [0,1]. -/
def getElevation (perm : List ℕ) (x y : ℚ) : ℚ :=
  let nx := x * TERRAIN_SCALE
  let ny := y * TERRAIN_SCALE
  let e := (noise perm nx ny + 1) / 2
  let e := e + (1/2) * ((noise perm (nx * 2) (ny * 2) + 1) / 2)
  let e := e + (1/4) * ((noise perm (nx * 4) (ny * 4) + 1) / 2)
  e / (7/4)

/-- `getMoisture`. -/
def getMoisture (perm : List ℕ) (x y : ℚ) : ℚ :=
  let nx := (x + 5000) * TERRAIN_SCALE
  let ny := (y + 5000) * TERRAIN_SCALE
  (noise perm (nx * (1/2)) (ny * (1/2)) + 1) / 2

/-- `getBiomeAt` (after the one-time lazy noise seeding, which only
fixes `perm`). -/
def getBiomeAt (perm : List ℕ) (x y : ℚ) : BiomeType :=
  let e := getElevation perm x y
  let m := getMoisture perm x y
  if e < BIOME_THRESHOLDS_DEEP_OCEAN then BiomeType.deep_ocean
  else if e < BIOME_THRESHOLDS_OCEAN then BiomeType.ocean
  else if e < BIOME_THRESHOLDS_BEACH then BiomeType.beach
  else if e > BIOME_THRESHOLDS_MOUNTAIN then BiomeType.mountain
  else if m > 6/10 then BiomeType.jungle
  else if m > 4/10 then BiomeType.forest
  else BiomeType.plains

end TerrainSystem

/-! ## Shared helpers -/

/-- Euclidean distance through the abstract `Math.sqrt`
(`CreatureSystem.dist` / `SimulationEngine.dist`). -/
def distE (E : Env) (a b : ℚ × ℚ) : ℚ :=
  E.sqrt ((a.1 - b.1) ^ 2 + (a.2 - b.2) ^ 2)

/-- `d < minDist` where `minDist` starts as JavaScript `Infinity`
(modelled by `none`). -/
def ltMin (d : ℚ) : Option ℚ → Bool
  | none => true
  | some m => decide (d < m)

/-- Apply a state transformer `n` times (a `for` loop with a fixed
iteration count). -/
def iterate {α : Type} (f : α → α) : ℕ → α → α
  | 0, st => st
  | n + 1, st => iterate f n (f st)

/-! ## Creature physics & metabolism (src/systems/Creature.ts) -/

namespace CreatureSystem

/-- `CreatureSystem.calculateMetabolism` (the terrain-aware version with
defense cost and the resting discount).  `perm` is the terrain noise
permutation table fixed at world generation. -/
def calculateMetabolism (E : Env) (perm : List ℕ) (c : Critter) : Critter :=
  let g := c.genome
  let biome := TerrainSystem.getBiomeAt perm c.px c.py
  let inWater := biome = BiomeType.ocean ∨ biome = BiomeType.deep_ocean
  let envVal : ℚ := if inWater then 0 else 1
  let mismatch := |g.amphibious - envVal|
  let suffocation : ℚ :=
    if mismatch > 3/10 then (mismatch - 3/10) * SUFFOCATION_PENALTY else 0
  let limbCost := g.limbCount * ENERGY_COST_PER_LIMB
  let mouthCost := g.mouthSize * ENERGY_COST_MOUTH_SIZE
  let sizeCost := g.size * g.size * (5/1000)
  let defenseCost := g.defense * g.size * ENERGY_COST_DEFENSE
  let speed := E.sqrt (c.vx ^ 2 + c.vy ^ 2)
  let efficiency : ℚ :=
    if inWater then
      let e1 : ℚ := if g.amphibious > 1/2 then 2/10 else 1
      if g.amphibious < 1/2 ∧ g.limbCount > 0 then e1 * (12/10) else e1
    else
      let e1 : ℚ := if g.amphibious < 1/2 then 1/10 else 1
      if 2 ≤ g.limbCount ∧ g.limbCount ≤ 6 then e1 * (11/10) else e1
  let moveCost := speed * (g.size * (1/10)) * ENERGY_COST_MOVE_BASE / efficiency
  let totalCost :=
    ENERGY_COST_EXIST + limbCost + mouthCost + moveCost + sizeCost +
      defenseCost + suffocation
  let totalCost :=
    if c.cstate = CState.resting then totalCost * ENERGY_COST_RESTING_MULTIPLIER
    else totalCost
  { c with energy := c.energy - totalCost }

end CreatureSystem

/-! ## Behavior arbitration (src/systems/Behavior.ts) -/

namespace BehaviorSystem

/-- Accumulator of the single scan over neighbors in `think`
(nearest qualifying predator and, for carnivores, nearest prey). -/
structure ScanAcc where
  nearestPredator : Option Critter
  predatorDist : Option ℚ
  nearestPrey : Option Critter
  preyDist : Option ℚ
  deriving DecidableEq, Repr

/-- The neighbor scan of `think` (steps 1 of the source): one pass,
updating the predator and prey candidates exactly as the loop does. -/
def scanNeighbors (E : Env) (c : Critter) (neighbors : List Critter) : ScanAcc :=
  let g := c.genome
  let isCarn := g.diet > 1/2
  neighbors.foldl
    (fun acc other =>
      if other.id = c.id then acc
      else
        let d := distE E (c.px, c.py) (other.px, other.py)
        if d > g.senseRadius then acc
        else
          let acc :=
            if (¬ isCarn) ∨ other.genome.size > g.size * (15/10) then
              if other.genome.diet > 1/2 ∧ other.genome.size ≥ g.size * (8/10) then
                if ltMin d acc.predatorDist then
                  { acc with nearestPredator := some other, predatorDist := some d }
                else acc
              else acc
            else acc
          if isCarn ∧ other.speciesId ≠ c.speciesId then
            let preyDefenseFactor := 1 + other.genome.defense
            let preyEffectiveSize := other.genome.size * preyDefenseFactor
            if (g.size + g.mouthSize * 2 > preyEffectiveSize) ∧ ltMin d acc.preyDist then
              { acc with nearestPrey := some other, preyDist := some d }
            else acc
          else acc)
    ⟨none, none, none, none⟩

/-- The food scan of `think` (herbivores only): nearest item with a
positive energy value within the sense radius. -/
def scanFood (E : Env) (c : Critter) (food : List Food) : Option Food × Option ℚ :=
  food.foldl
    (fun acc f =>
      if f.energyValue ≤ 0 then acc
      else
        let d := distE E (c.px, c.py) (f.px, f.py)
        if ltMin d acc.2 ∧ d < c.genome.senseRadius then (some f, some d) else acc)
    (none, none)

/-- The fear utility of `think`: `1 - predatorDist / senseRadius`, and
0 when no predator was sensed. -/
def fearScoreOf (E : Env) (c : Critter) (neighbors : List Critter) : ℚ :=
  match (scanNeighbors E c neighbors).nearestPredator,
      (scanNeighbors E c neighbors).predatorDist with
  | some _, some d => 1 - d / c.genome.senseRadius
  | _, _ => 0

/-- The hunger utility of `think`: `max 0 (1 - energy / reproThreshold)`. -/
def hungerScoreOf (c : Critter) : ℚ :=
  max 0 (1 - c.energy / c.genome.reproThreshold)

/-- The fatigue utility of `think`: a fixed 0.8 when energy is below 30%
of the reproduction threshold. -/
def fatigueScoreOf (c : Critter) : ℚ :=
  if c.energy < c.genome.reproThreshold * (3/10) then 8/10 else 0

/-- `BehaviorSystem.think`: utility scores and first-match arbitration.
`k` is the current `Math.random()` call index (one draw, for the
jittered next think time). -/
def think (E : Env) (k : ℕ) (c : Critter) (neighbors : List Critter)
    (food : List Food) (time : ℚ) : Critter :=
  let g := c.genome
  let isCarn := g.diet > 1/2
  let acc := scanNeighbors E c neighbors
  let foodScan := if ¬ isCarn then scanFood E c food else (none, none)
  let fearScore : ℚ := fearScoreOf E c neighbors
  let hungerScore : ℚ := hungerScoreOf c
  let fatigueScore : ℚ := fatigueScoreOf c
  let c := { c with nextThinkTime := time + 5 + E.rand k * 10 }
  if fearScore > 6/10 ∧ acc.nearestPredator.isSome then
    match acc.nearestPredator with
    | some p =>
        { c with
          cstate := CState.fleeing, targetId := some p.id,
          targetPos := some (p.px, p.py) }
    | none => c
  else if hungerScore > 4/10 ∧ isCarn ∧ acc.nearestPrey.isSome then
    match acc.nearestPrey with
    | some pr =>
        { c with
          cstate := CState.hunting, targetId := some pr.id,
          targetPos := some (pr.px, pr.py) }
    | none => c
  else if hungerScore > 4/10 ∧ (¬ isCarn) ∧ foodScan.1.isSome then
    match foodScan.1 with
    | some f =>
        { c with
          cstate := CState.seeking_food, targetId := some f.id,
          targetPos := some (f.px, f.py) }
    | none => c
  else if fatigueScore > 1/2 ∧ acc.nearestPredator = none then
    { c with cstate := CState.resting, targetId := none, targetPos := none }
  else if c.cstate ≠ CState.wandering then
    { c with cstate := CState.wandering, targetId := none, targetPos := none }
  else c

end BehaviorSystem

/-! ## Genetics engine (src/systems/Genetics.ts) -/

namespace GeneticSystem

/-- `GeneticSystem.mutate(val, cfg, min)`: returns the (possibly) mutated
value, the magnitude `|change|` contributed, and the next random index.
`k` is the `Math.random()` call index at entry. -/
def mutateT (E : Env) (k : ℕ) (val : ℚ) (cfg : MutCfg) (mn : ℚ) : ℚ × ℚ × ℕ :=
  if E.rand k < cfg.rate then
    let change := (E.rand (k + 1) * 2 - 1) * cfg.variance
    (max mn (val * (1 + change)), |change|, k + 2)
  else (val, 0, k + 1)

/-- Result of the per-trait mutation pass (steps before the speciation
check): the mutated trait values, the accumulated `mutationMetric`, and
the next random index. -/
structure MutOut where
  speed : ℚ
  size : ℚ
  senseRadius : ℚ
  limbLength : ℚ
  mouthSize : ℚ
  reproThreshold : ℚ
  defense : ℚ
  amphibious : ℚ
  limbCount : ℚ
  diet : ℚ
  metric : ℚ
  kAfter : ℕ

/-- The numeric/structural mutation pass of `createOffspring` (speed,
size, sense, limb length, mouth, repro threshold, defense, amphibious,
limb count, diet — in source order, accumulating the weighted
magnitudes). -/
def mutationPhase (E : Env) (k : ℕ) (g0 : Genome) : MutOut :=
  let r1 := mutateT E k g0.speed CFG_SPEED (1/10)
  let r2 := mutateT E r1.2.2 g0.size CFG_SIZE 3
  let r3 := mutateT E r2.2.2 g0.senseRadius CFG_SENSE 20
  let r4 := mutateT E r3.2.2 g0.limbLength CFG_LIMB_LENGTH 1
  let r5 := mutateT E r4.2.2 g0.mouthSize CFG_MOUTH_SIZE 1
  let r6 := mutateT E r5.2.2 g0.reproThreshold CFG_REPRO_THRESHOLD 50
  let r7 : ℚ × ℚ × ℕ :=
    if E.rand r6.2.2 < CFG_DEFENSE.rate then
      let change := (E.rand (r6.2.2 + 1) * 2 - 1) * CFG_DEFENSE.variance
      (max 0 (min 1 (g0.defense + change)), |change| * 2, r6.2.2 + 2)
    else (g0.defense, 0, r6.2.2 + 1)
  let r8 : ℚ × ℚ × ℕ :=
    if E.rand r7.2.2 < CFG_AMPHIBIOUS.rate then
      let change := (E.rand (r7.2.2 + 1) * 2 - 1) * CFG_AMPHIBIOUS.variance
      (max 0 (min 1 (g0.amphibious + change)), |change| * 3, r7.2.2 + 2)
    else (g0.amphibious, 0, r7.2.2 + 1)
  let r9 : ℚ × ℚ × ℕ :=
    if E.rand r8.2.2 < CFG_LIMB_COUNT.rate then
      let change : ℚ := if E.rand (r8.2.2 + 1) < 1/2 then -1 else 1
      (max 0 (min 8 (g0.limbCount + change)), 2/10, r8.2.2 + 2)
    else (g0.limbCount, 0, r8.2.2 + 1)
  let r10 : ℚ × ℚ × ℕ :=
    if E.rand r9.2.2 < CFG_DIET.rate then
      let change := (E.rand (r9.2.2 + 1) * 2 - 1) * CFG_DIET.variance
      (max 0 (min 1 (g0.diet + change)), |change| * 2, r9.2.2 + 2)
    else (g0.diet, 0, r9.2.2 + 1)
  { speed := r1.1, size := r2.1, senseRadius := r3.1, limbLength := r4.1,
    mouthSize := r5.1, reproThreshold := r6.1, defense := r7.1,
    amphibious := r8.1, limbCount := r9.1, diet := r10.1,
    metric := r1.2.1 + r2.2.1 + r3.2.1 + r4.2.1 + r5.2.1 + r6.2.1 +
      r7.2.1 + r8.2.1 + r9.2.1 + r10.2.1,
    kAfter := r10.2.2 }

/-- Result of `createOffspring`, with the internal accumulated mutation
magnitude (`mutationMetric`) and final random index exposed. -/
structure Offspring where
  genome : Genome
  speciesId : ℕ
  newSpecies : Option Species
  metric : ℚ
  kAfter : ℕ

/-- `GeneticSystem.createOffspring(parent, speciesMap, time, getNextId)`.
`suffix` is the id the `getNextId` callback returns (species keys are
modelled numerically, see `Species`); the cosmetic display name is not
modelled.  Engine-produced colors always re-parse, so the hsl
string round-trip is the identity on the stored triple. -/
def createOffspring (E : Env) (k : ℕ) (parent : Critter)
    (speciesMap : List Species) (time : ℕ) (suffix : ℕ) : Offspring :=
  let g0 := parent.genome
  let mo := mutationPhase E k g0
  let s := g0.color.s
  let l := g0.color.l
  let h : ℚ := jsMod ((g0.color.h : ℚ) + (E.rand mo.kAfter * 6 - 3) + 360) 360
  let kEnd := mo.kAfter + 1
  if mo.metric > SPECIATION_THRESHOLD then
    let parentSpecies := speciesMap.find? (fun sp => sp.id = parent.speciesId)
    let h2 := jsMod (h + 30) 360
    let ns : Species :=
      { id := suffix,
        parentId := parentSpecies.map (fun ps => ps.id),
        generation := (match parentSpecies with
          | some ps => ps.generation
          | none => 0) + 1,
        color := ⟨jsRound h2, s, l⟩,
        count := 0, extinct := false, firstAppearedAt := time }
    { genome := { g0 with
        speed := mo.speed, size := mo.size, senseRadius := mo.senseRadius,
        limbLength := mo.limbLength, mouthSize := mo.mouthSize,
        reproThreshold := mo.reproThreshold, defense := mo.defense,
        amphibious := mo.amphibious, limbCount := mo.limbCount,
        diet := mo.diet, color := ⟨jsRound h2, s, l⟩ },
      speciesId := suffix, newSpecies := some ns, metric := mo.metric, kAfter := kEnd }
  else
    { genome := { g0 with
        speed := mo.speed, size := mo.size, senseRadius := mo.senseRadius,
        limbLength := mo.limbLength, mouthSize := mo.mouthSize,
        reproThreshold := mo.reproThreshold, defense := mo.defense,
        amphibious := mo.amphibious, limbCount := mo.limbCount,
        diet := mo.diet, color := ⟨jsRound h, s, l⟩ },
      speciesId := parent.speciesId, newSpecies := none, metric := mo.metric, kAfter := kEnd }

end GeneticSystem

/-! ## Simulation engine (the spatial-grid `SimulationEngine`)

Entities are aliased in the source (the arrays and the grid cells hold
the same mutable objects), so the state keeps heap-style stores indexed
by the numeric part of the generated ids (`ent_${n}` ↦ `n`), and the
arrays/cells hold ids.  A grid-cell `indexOf`+`splice` on an object is
the removal of the first occurrence of its id (ids are unique).

Where the JavaScript would fault on an out-of-range array index (a kill
at a stale loop index after mid-iteration removals), the tick would not
complete; those reads are modelled as no-ops, so every completed
JavaScript tick is one of the modelled runs. -/

namespace Engine

def dummyGenome : Genome := BASE_GENOME

def dummyCritter : Critter :=
  { id := 0, speciesId := 0, px := 0, py := 0, vx := 0, vy := 0, energy := 0,
    age := 0, genome := dummyGenome, cstate := CState.wandering,
    targetId := none, targetPos := none, nextThinkTime := 0, heading := 0,
    gridIndex := 0 }

def dummyFood : Food :=
  { id := 0, px := 0, py := 0, energyValue := 0, age := 0, gridIndex := 0 }

structure EngineState where
  critters : List ℕ
  food : List ℕ
  cStore : ℕ → Critter
  fStore : ℕ → Food
  species : List Species
  time : ℕ
  foodGrid : List (List ℕ)
  critterGrid : List (List ℕ)
  nextId : ℕ
  rng : ℕ

/-- `getGridIndex(x, y)` of the engine (identical formula to
`SpatialHash.getIndex`). -/
def getGridIndex (x y : ℚ) : ℕ :=
  let col : ℤ := ⌊x / GRID_CELL_SIZE⌋
  let row : ℤ := ⌊y / GRID_CELL_SIZE⌋
  let c : ℤ := max 0 (min (GRID_COLS - 1) col)
  let r : ℤ := max 0 (min (GRID_ROWS - 1) row)
  (c + r * GRID_COLS).toNat

/-- `Map.get` over the species registry. -/
def getSpec (l : List Species) (sid : ℕ) : Option Species :=
  l.find? (fun sp => sp.id = sid)

/-- `Map.set` (overwrite in place if the key exists, else append). -/
def mapSet (l : List Species) (sp : Species) : List Species :=
  if l.any (fun x => x.id = sp.id) then
    l.map (fun x => if x.id = sp.id then sp else x)
  else l ++ [sp]

/-- `species.get(sid)` followed by `count += δ` on the fetched record
(no-op when the species is absent). -/
def bumpCount (l : List Species) (sid : ℕ) (δ : ℤ) : List Species :=
  l.map (fun sp => if sp.id = sid then { sp with count := sp.count + δ } else sp)

def gridPush (g : List (List ℕ)) (idx eid : ℕ) : List (List ℕ) :=
  g.set idx (g.getD idx [] ++ [eid])

/-- `indexOf` + `splice(i, 1)` of an entity in a cell. -/
def gridRemove (g : List (List ℕ)) (idx eid : ℕ) : List (List ℕ) :=
  g.set idx ((g.getD idx []).eraseP (fun x => x = eid))

/-- Mutate the critter object with id `cid` in place. -/
def modC (st : EngineState) (cid : ℕ) (f : Critter → Critter) : EngineState :=
  { st with cStore := fun i => if i = cid then f (st.cStore i) else st.cStore i }

/-- Mutate the food object with id `fid` in place. -/
def modF (st : EngineState) (fid : ℕ) (f : Food → Food) : EngineState :=
  { st with fStore := fun i => if i = fid then f (st.fStore i) else st.fStore i }

/-- `spawnCritter(x, y, speciesId, genome)`: three `Math.random()` draws
(velocity x/y and heading). -/
def spawnCritter (E : Env) (st : EngineState) (x y : ℚ) (sid : ℕ) (g : Genome) :
    EngineState :=
  let idx := getGridIndex x y
  let cid := st.nextId
  let c : Critter :=
    { id := cid, speciesId := sid, px := x, py := y,
      vx := E.rand st.rng - 1/2, vy := E.rand (st.rng + 1) - 1/2,
      energy := STARTING_ENERGY, age := 0, genome := g,
      cstate := CState.wandering, targetId := none, targetPos := none,
      nextThinkTime := 0, heading := E.rand (st.rng + 2) * E.piQ * 2,
      gridIndex := idx }
  { st with
    critters := st.critters ++ [cid],
    cStore := fun i => if i = cid then c else st.cStore i,
    critterGrid := gridPush st.critterGrid idx cid,
    species := bumpCount st.species sid 1,
    nextId := st.nextId + 1, rng := st.rng + 3 }

/-- Append a food object at `(x, y)` (the common tail of the three food
spawners; consumes no draws itself). -/
def pushFoodAt (st : EngineState) (x y : ℚ) : EngineState :=
  let idx := getGridIndex x y
  let fid := st.nextId
  let f : Food :=
    { id := fid, px := x, py := y,
      energyValue := ENERGY_GAIN_FOOD, age := 0, gridIndex := idx }
  { st with
    food := st.food ++ [fid],
    fStore := fun i => if i = fid then f else st.fStore i,
    foodGrid := gridPush st.foodGrid idx fid,
    nextId := st.nextId + 1 }

/-- `spawnRandomFood()`: two draws. -/
def spawnRandomFood (E : Env) (st : EngineState) : EngineState :=
  let x := E.rand st.rng * WORLD_WIDTH
  let y := E.rand (st.rng + 1) * WORLD_HEIGHT
  pushFoodAt { st with rng := st.rng + 2 } x y

/-- `spawnFoodInZone(minX, maxX)`: two draws. -/
def spawnFoodInZone (E : Env) (st : EngineState) (minX maxX : ℚ) : EngineState :=
  let x := minX + E.rand st.rng * (maxX - minX)
  let y := E.rand (st.rng + 1) * WORLD_HEIGHT
  pushFoodAt { st with rng := st.rng + 2 } x y

/-- One ambient-spawn iteration of `growPlants` (guarded by the cap). -/
def ambientStep (E : Env) (st : EngineState) : EngineState :=
  if st.food.length < MAX_FOOD then spawnRandomFood E st else st

/-- The inner seed-scatter loop of `growPlants` (`spawnsToAttempt`
iterations, breaking at the food cap). -/
def spreadInner (E : Env) (parent : Food) : ℕ → EngineState → EngineState
  | 0, st => st
  | n + 1, st =>
    if st.food.length ≥ MAX_FOOD then st
    else
      let angle := E.rand st.rng * E.piQ * 2
      let st := { st with rng := st.rng + 1 }
      let pr :=
        if parent.px < BIOME_WATER_WIDTH then
          ((20 : ℚ) + E.rand (st.rng + 1) * 350, { st with rng := st.rng + 2 })
        else ((15 : ℚ) + E.rand st.rng * 80, { st with rng := st.rng + 1 })
      let d := pr.1
      let st := pr.2
      let newX := parent.px + E.cosQ angle * d
      let newY := parent.py + E.sinQ angle * d
      let st :=
        if 0 < newX ∧ newX < WORLD_WIDTH ∧ 0 < newY ∧ newY < WORLD_HEIGHT then
          pushFoodAt st newX newY
        else st
      spreadInner E parent n st

/-- One outer spread iteration of `growPlants`: pick a random parent,
compute the biome growth chance, scatter. -/
def spreadOnce (E : Env) (st : EngineState) : EngineState :=
  let pick := E.rand st.rng
  let st := { st with rng := st.rng + 1 }
  let parentId := st.food.getD (⌊pick * st.food.length⌋).toNat 0
  let parent := st.fStore parentId
  let beachStart := BIOME_WATER_WIDTH - 50
  let beachEnd := BIOME_WATER_WIDTH + 100
  let growthChance : ℚ :=
    if parent.px > beachStart ∧ parent.px < beachEnd then BIOME_FOREST_GROWTH * 2
    else if parent.px < BIOME_WATER_WIDTH then BIOME_WATER_GROWTH
    else if parent.px < BIOME_WATER_WIDTH + BIOME_FOREST_WIDTH then BIOME_FOREST_GROWTH
    else BIOME_SCRUB_GROWTH
  let guaranteed := (⌊growthChance⌋).toNat
  let remainder := growthChance - ⌊growthChance⌋
  let bonus : ℕ := if E.rand st.rng < remainder then 1 else 0
  let st := { st with rng := st.rng + 1 }
  spreadInner E parent (min 50 (guaranteed + bonus)) st

/-- The outer spread loop (`subsetSize` iterations, breaking at the cap). -/
def spreadLoop (E : Env) : ℕ → EngineState → EngineState
  | 0, st => st
  | n + 1, st =>
    if st.food.length ≥ MAX_FOOD then st
    else spreadLoop E n (spreadOnce E st)

/-- `growPlants()`. -/
def growPlants (E : Env) (st : EngineState) : EngineState :=
  let st := iterate (ambientStep E) 10 st
  let r1 := E.rand st.rng
  let st := { st with rng := st.rng + 1 }
  let st :=
    if r1 < 1/2 then
      spawnFoodInZone E st (BIOME_WATER_WIDTH + BIOME_FOREST_WIDTH) WORLD_WIDTH
    else st
  let r2 := E.rand st.rng
  let st := { st with rng := st.rng + 1 }
  let st :=
    if r2 < 3/10 then
      spawnFoodInZone E st (BIOME_WATER_WIDTH - 50) (BIOME_WATER_WIDTH + 100)
    else st
  if st.food.length ≥ MAX_FOOD then st
  else
    let st :=
      if st.food.length < 5000 then
        if st.food.countP (fun fid => decide ((st.fStore fid).px < BIOME_WATER_WIDTH)) < 500 then
          iterate (fun s => spawnFoodInZone E s 5 (BIOME_WATER_WIDTH - 5)) 30 st
        else st
      else st
    spreadLoop E (min st.food.length 50) st

/-- `getNeighborIndices(centerIdx)`: the center cell, then the in-bounds
8-neighborhood. -/
def getNeighborIndices (centerIdx : ℕ) : List ℕ :=
  let col : ℤ := (centerIdx : ℤ) % GRID_COLS
  let row : ℤ := (centerIdx : ℤ) / GRID_COLS
  centerIdx ::
    (([-1, 0, 1] : List ℤ).flatMap (fun dy =>
      ([-1, 0, 1] : List ℤ).filterMap (fun dx =>
        if dx = 0 ∧ dy = 0 then none
        else
          let nc := col + dx
          let nr := row + dy
          if 0 ≤ nc ∧ nc < GRID_COLS ∧ 0 ≤ nr ∧ nr < GRID_ROWS then
            some (nc + nr * GRID_COLS).toNat
          else none)))

def cellCritters (st : EngineState) (idx : ℕ) : List ℕ :=
  st.critterGrid.getD idx []

def cellFood (st : EngineState) (idx : ℕ) : List ℕ :=
  st.foodGrid.getD idx []

/-- `killCritter(index)`: deregister from the grid cell, decrement the
species count, splice out of the array. -/
def killCritter (st : EngineState) (idx : ℕ) : EngineState :=
  match st.critters.get? idx with
  | none => st
  | some cid =>
    let c := st.cStore cid
    let st := { st with critterGrid := gridRemove st.critterGrid c.gridIndex cid }
    let st := { st with species := bumpCount st.species c.speciesId (-1) }
    { st with critters := st.critters.eraseIdx idx }

/-- `normalizeVelocity(critter)`. -/
def normalizeVelocity (E : Env) (st : EngineState) (cid : ℕ) : EngineState :=
  modC st cid (fun c =>
    let inWater := c.px < BIOME_WATER_WIDTH
    let suitability : ℚ :=
      if inWater then 1 - c.genome.amphibious else c.genome.amphibious
    let maxSpeed := c.genome.speed
    let maxSpeed : ℚ :=
      if inWater then (maxSpeed + c.genome.limbLength * (15/100)) * (2/10 + suitability * (8/10))
      else (maxSpeed + c.genome.limbLength * (4/10)) * (1/10 + suitability * (9/10))
    let maxSpeed := maxSpeed - c.genome.size * (5/100)
    let maxSpeed := max (1/10) maxSpeed
    let currentSpeed := E.sqrt (c.vx ^ 2 + c.vy ^ 2)
    let c := if currentSpeed > 1/10 then { c with heading := E.atan2 c.vy c.vx } else c
    if currentSpeed > maxSpeed then
      { c with
        vx := c.vx * (maxSpeed / currentSpeed),
        vy := c.vy * (maxSpeed / currentSpeed) }
    else c)

/-- `wander(critter)`: two draws, then normalize. -/
def wander (E : Env) (st : EngineState) (cid : ℕ) : EngineState :=
  let st' := modC st cid (fun c =>
    { c with
      vx := c.vx + (E.rand st.rng - 1/2) * (15/10),
      vy := c.vy + (E.rand (st.rng + 1) - 1/2) * (15/10) })
  normalizeVelocity E { st' with rng := st'.rng + 2 } cid

/-- `steerTowards(critter, target)`. -/
def steerTowards (E : Env) (st : EngineState) (cid : ℕ) (target : ℚ × ℚ) :
    EngineState :=
  let st := modC st cid (fun c =>
    let dx := target.1 - c.px
    let dy := target.2 - c.py
    let d := E.sqrt (dx * dx + dy * dy)
    if d > 0 then
      let inWater := c.px < BIOME_WATER_WIDTH
      let turnSpeed : ℚ :=
        if inWater then
          let t := (5/100 : ℚ) + c.genome.limbCount * (3/100)
          if c.genome.amphibious > 6/10 then t * (1/2) else t
        else
          let t := (5/100 : ℚ) + c.genome.limbCount * (15/1000)
          if c.genome.amphibious < 4/10 then t * (2/10) else t
      { c with vx := c.vx + dx / d * turnSpeed, vy := c.vy + dy / d * turnSpeed }
    else c)
  normalizeVelocity E st cid

/-- `fleeFrom(critter, threat)`. -/
def fleeFrom (E : Env) (st : EngineState) (cid : ℕ) (threat : ℚ × ℚ) :
    EngineState :=
  let st := modC st cid (fun c =>
    let dx := c.px - threat.1
    let dy := c.py - threat.2
    let d := E.sqrt (dx * dx + dy * dy)
    if d > 0 then { c with vx := c.vx + dx / d, vy := c.vy + dy / d } else c)
  normalizeVelocity E st cid

/-- `findNearestPredator(critter)`: scan the 3×3 grid neighborhood. -/
def findNearestPredator (E : Env) (st : EngineState) (cid : ℕ) :
    Option ℕ × Option ℚ :=
  let c := st.cStore cid
  ((getNeighborIndices c.gridIndex).flatMap (cellCritters st)).foldl
    (fun acc oid =>
      let other := st.cStore oid
      if other.id = c.id then acc
      else if other.genome.diet > 1/2 ∧ other.genome.size ≥ c.genome.size then
        let d := distE E (c.px, c.py) (other.px, other.py)
        if d < c.genome.senseRadius ∧ ltMin d acc.2 = true then (some oid, some d)
        else acc
      else acc)
    (none, none)

/-- The prey scan of `huntPrey`. -/
def scanPrey (E : Env) (st : EngineState) (cid : ℕ) : Option ℕ × Option ℚ :=
  let c := st.cStore cid
  ((getNeighborIndices c.gridIndex).flatMap (cellCritters st)).foldl
    (fun acc oid =>
      let other := st.cStore oid
      if other.id = c.id then acc
      else if other.speciesId = c.speciesId then acc
      else if c.genome.size + c.genome.mouthSize * 2 >
          other.genome.size + (if other.genome.diet > 1/2 then other.genome.mouthSize else 0) then
        let d := distE E (c.px, c.py) (other.px, other.py)
        if d < c.genome.senseRadius ∧ ltMin d acc.2 = true then (some oid, some d)
        else acc
      else acc)
    (none, none)

/-- `huntPrey(critter)`. -/
def huntPrey (E : Env) (st : EngineState) (cid : ℕ) : EngineState :=
  match scanPrey E st cid with
  | (some pid, some minDist) =>
    let st := modC st cid (fun x => { x with cstate := CState.hunting, targetId := some pid })
    let st := steerTowards E st cid ((st.cStore pid).px, (st.cStore pid).py)
    let prey := st.cStore pid
    if minDist < (st.cStore cid).genome.size + prey.genome.size then
      let st := modC st cid (fun x =>
        { x with energy := x.energy + prey.energy * ENERGY_GAIN_MEAT_MULTIPLIER + prey.genome.size * 10 })
      let st :=
        match st.critters.findIdx? (fun i => (st.cStore i).id = prey.id) with
        | some preyIdx => killCritter st preyIdx
        | none => st
      modC st cid (fun x => { x with targetId := none })
    else st
  | _ =>
    let st := modC st cid (fun x => { x with cstate := CState.wandering })
    wander E st cid

/-- The food scan of `seekFood` over the 3×3 grid neighborhood (skipping
already-eaten items). -/
def scanFoodCells (E : Env) (st : EngineState) (cid : ℕ) : Option ℕ × Option ℚ :=
  let c := st.cStore cid
  ((getNeighborIndices c.gridIndex).flatMap (cellFood st)).foldl
    (fun acc fid =>
      let f := st.fStore fid
      if f.energyValue ≤ 0 then acc
      else
        let d := distE E (c.px, c.py) (f.px, f.py)
        if d < c.genome.senseRadius ∧ ltMin d acc.2 = true then (some fid, some d)
        else acc)
    (none, none)

/-- `seekFood(critter)`. -/
def seekFood (E : Env) (st : EngineState) (cid : ℕ) : EngineState :=
  match scanFoodCells E st cid with
  | (some fid, some minDist) =>
    let st := modC st cid (fun x => { x with cstate := CState.seeking_food, targetId := some fid })
    let st := steerTowards E st cid ((st.fStore fid).px, (st.fStore fid).py)
    let c := st.cStore cid
    if minDist < c.genome.size + c.genome.mouthSize / 2 then
      let f := st.fStore fid
      let st := modC st cid (fun x => { x with energy := x.energy + f.energyValue })
      let st := modF st fid (fun x => { x with energyValue := 0 })
      let st := { st with foodGrid := gridRemove st.foodGrid f.gridIndex fid }
      modC st cid (fun x => { x with targetId := none })
    else st
  | _ =>
    let st := modC st cid (fun x => { x with cstate := CState.wandering })
    wander E st cid

/-- The engine `reproduce` mutation pass: like
`GeneticSystem.mutationPhase` but with no defense mutation (the engine
version predates the defense trait; the copied genome keeps the
parent's defense). -/
def mutationPhase (E : Env) (k : ℕ) (g0 : Genome) : GeneticSystem.MutOut :=
  let r1 := GeneticSystem.mutateT E k g0.speed CFG_SPEED (1/10)
  let r2 := GeneticSystem.mutateT E r1.2.2 g0.size CFG_SIZE 3
  let r3 := GeneticSystem.mutateT E r2.2.2 g0.senseRadius CFG_SENSE 20
  let r4 := GeneticSystem.mutateT E r3.2.2 g0.limbLength CFG_LIMB_LENGTH 1
  let r5 := GeneticSystem.mutateT E r4.2.2 g0.mouthSize CFG_MOUTH_SIZE 1
  let r6 := GeneticSystem.mutateT E r5.2.2 g0.reproThreshold CFG_REPRO_THRESHOLD 50
  let r7 : ℚ × ℚ × ℕ :=
    if E.rand r6.2.2 < CFG_AMPHIBIOUS.rate then
      let change := (E.rand (r6.2.2 + 1) * 2 - 1) * CFG_AMPHIBIOUS.variance
      (max 0 (min 1 (g0.amphibious + change)), |change| * 3, r6.2.2 + 2)
    else (g0.amphibious, 0, r6.2.2 + 1)
  let r8 : ℚ × ℚ × ℕ :=
    if E.rand r7.2.2 < CFG_LIMB_COUNT.rate then
      let change : ℚ := if E.rand (r7.2.2 + 1) < 1/2 then -1 else 1
      (max 0 (min 8 (g0.limbCount + change)), 2/10, r7.2.2 + 2)
    else (g0.limbCount, 0, r7.2.2 + 1)
  let r9 : ℚ × ℚ × ℕ :=
    if E.rand r8.2.2 < CFG_DIET.rate then
      let change := (E.rand (r8.2.2 + 1) * 2 - 1) * CFG_DIET.variance
      (max 0 (min 1 (g0.diet + change)), |change| * 2, r8.2.2 + 2)
    else (g0.diet, 0, r8.2.2 + 1)
  { speed := r1.1, size := r2.1, senseRadius := r3.1, limbLength := r4.1,
    mouthSize := r5.1, reproThreshold := r6.1, defense := g0.defense,
    amphibious := r7.1, limbCount := r8.1, diet := r9.1,
    metric := r1.2.1 + r2.2.1 + r3.2.1 + r4.2.1 + r5.2.1 + r6.2.1 +
      r7.2.1 + r8.2.1 + r9.2.1,
    kAfter := r9.2.2 }

/-- `reproduce(parent)`: mutate the genome, maybe found a new species,
halve the parent's energy, spawn the baby at 40%. -/
def reproduce (E : Env) (st : EngineState) (cid : ℕ) : EngineState :=
  if st.critters.length ≥ MAX_POPULATION then st
  else
    let parent := st.cStore cid
    let g0 := parent.genome
    let mo := mutationPhase E st.rng g0
    let s := g0.color.s
    let l := g0.color.l
    let h : ℚ := jsMod ((g0.color.h : ℚ) + (E.rand mo.kAfter * 6 - 3) + 360) 360
    let k := mo.kAfter + 1
    let branch : ℕ × ℚ × EngineState :=
      if mo.metric > SPECIATION_THRESHOLD then
        let parentSpecies := getSpec st.species parent.speciesId
        let nsid := st.nextId
        let h2 := jsMod (h + 30) 360
        let ns : Species :=
          { id := nsid,
            parentId := parentSpecies.map (fun ps => ps.id),
            generation := (match parentSpecies with
              | some ps => ps.generation
              | none => 0) + 1,
            color := ⟨jsRound h2, s, l⟩,
            count := 0, extinct := false, firstAppearedAt := st.time }
        (nsid, h2, { st with species := mapSet st.species ns })
      else (parent.speciesId, h, st)
    let childSid := branch.1
    let hFinal := branch.2.1
    let st := branch.2.2
    let newGenome : Genome :=
      { g0 with
        speed := mo.speed, size := mo.size, senseRadius := mo.senseRadius,
        limbLength := mo.limbLength, mouthSize := mo.mouthSize,
        reproThreshold := mo.reproThreshold, amphibious := mo.amphibious,
        limbCount := mo.limbCount, diet := mo.diet,
        color := ⟨jsRound hFinal, s, l⟩ }
    let babyEnergy := parent.energy * (4/10)
    let st := modC st cid (fun x => { x with energy := x.energy - x.energy * (1/2) })
    let jx := parent.px + (E.rand k * 20 - 10)
    let jy := parent.py + (E.rand (k + 1) * 20 - 10)
    let st := spawnCritter E { st with rng := k + 2 } jx jy childSid newGenome
    let babyId := st.critters.getLastD 0
    modC st babyId (fun x => { x with energy := babyEnergy })

/-- `decideAction(critter)`. -/
def decideAction (E : Env) (st : EngineState) (cid : ℕ) : EngineState :=
  let c := st.cStore cid
  let isCarn := c.genome.diet > 1/2
  let threat : Option ℕ := if isCarn then none else (findNearestPredator E st cid).1
  match threat with
  | some tid =>
    let st := modC st cid (fun x => { x with cstate := CState.fleeing })
    fleeFrom E st cid ((st.cStore tid).px, (st.cStore tid).py)
  | none =>
    if c.energy > c.genome.reproThreshold then reproduce E st cid
    else if isCarn then huntPrey E st cid
    else seekFood E st cid

/-- `applyGeneticDrift(critter)`. -/
def applyGeneticDrift (E : Env) (st : EngineState) (cid : ℕ) : EngineState :=
  let r := E.rand st.rng
  let st := { st with rng := st.rng + 1 }
  if r > GENETIC_DRIFT_RATE then st
  else
    let d1 := 1 + (E.rand st.rng * 2 - 1) * GENETIC_DRIFT_SCALE
    let d2 := 1 + (E.rand (st.rng + 1) * 2 - 1) * GENETIC_DRIFT_SCALE
    let st := { st with rng := st.rng + 2 }
    modC st cid (fun c =>
      { c with genome := { c.genome with speed := c.genome.speed * d1, size := c.genome.size * d2 } })

/-- `move(critter)`: friction, integrate, relocate in the grid. -/
def move (_E : Env) (st : EngineState) (cid : ℕ) : EngineState :=
  let st := modC st cid (fun c =>
    let inWater := c.px < BIOME_WATER_WIDTH
    let friction : ℚ :=
      if inWater then BIOME_WATER_DRAG
      else if c.px > BIOME_WATER_WIDTH + BIOME_FOREST_WIDTH then BIOME_SCRUB_FRICTION
      else BIOME_FOREST_FRICTION
    let vx := c.vx * friction
    let vy := c.vy * friction
    { c with vx := vx, vy := vy, px := c.px + vx, py := c.py + vy })
  let c := st.cStore cid
  let newIdx := getGridIndex c.px c.py
  if newIdx ≠ c.gridIndex then
    let st := { st with critterGrid := gridRemove st.critterGrid c.gridIndex cid }
    let st := modC st cid (fun x => { x with gridIndex := newIdx })
    { st with critterGrid := gridPush st.critterGrid newIdx cid }
  else st

/-- `enforceBoundaries(critter)`. -/
def enforceBoundaries (st : EngineState) (cid : ℕ) : EngineState :=
  modC st cid (fun c =>
    let c := if c.px < 10 then { c with vx := |c.vx| } else c
    let c := if c.px > WORLD_WIDTH - 10 then { c with vx := -|c.vx| } else c
    let c := if c.py < 10 then { c with vy := |c.vy| } else c
    if c.py > WORLD_HEIGHT - 10 then { c with vy := -|c.vy| } else c)

/-- `calculateMetabolism(critter)` (engine version: no defense cost, no
resting discount). -/
def calculateMetabolism (E : Env) (st : EngineState) (cid : ℕ) : EngineState :=
  modC st cid (fun c =>
    let g := c.genome
    let inWater := c.px < BIOME_WATER_WIDTH
    let envVal : ℚ := if inWater then 0 else 1
    let mismatch := |g.amphibious - envVal|
    let suffocation : ℚ :=
      if mismatch > 3/10 then (mismatch - 3/10) * SUFFOCATION_PENALTY else 0
    let limbCost := g.limbCount * ENERGY_COST_PER_LIMB
    let mouthCost := g.mouthSize * ENERGY_COST_MOUTH_SIZE
    let sizeCost := g.size * g.size * (5/1000)
    let speed := E.sqrt (c.vx ^ 2 + c.vy ^ 2)
    let efficiency : ℚ :=
      if inWater then
        let e1 : ℚ := if g.amphibious > 1/2 then 2/10 else 1
        if g.amphibious < 1/2 ∧ g.limbCount > 0 then e1 * (12/10) else e1
      else
        let e1 : ℚ := if g.amphibious < 1/2 then 1/10 else 1
        if 2 ≤ g.limbCount ∧ g.limbCount ≤ 6 then e1 * (11/10) else e1
    let moveCost := speed * (g.size * (1/10)) * ENERGY_COST_MOVE_BASE / efficiency
    { c with energy := c.energy - (ENERGY_COST_EXIST + limbCost + mouthCost + moveCost + sizeCost + suffocation) })

/-- One iteration of the backwards critter loop of `update`, at index
`i` (a stale index after removals is a fault in the source; the tick
would not complete, modelled as a skip). -/
def critterStep (E : Env) (st : EngineState) (i : ℕ) : EngineState :=
  match st.critters.get? i with
  | none => st
  | some cid =>
    let st := modC st cid (fun c => { c with age := c.age + 1 })
    let st := decideAction E st cid
    let st := applyGeneticDrift E st cid
    let st := move E st cid
    let st := enforceBoundaries st cid
    let st := calculateMetabolism E st cid
    let c := st.cStore cid
    if c.energy ≤ 0 ∨ c.age > 4000 then killCritter st i else st

/-- The backwards critter loop (`i` from `n - 1` down to `0`). -/
def critterLoop (E : Env) : ℕ → EngineState → EngineState
  | 0, st => st
  | n + 1, st => critterLoop E n (critterStep E st n)

/-- The end-of-tick extinction sweep. -/
def markExtinctions (st : EngineState) : EngineState :=
  { st with species := st.species.map (fun sp =>
      if sp.count = 0 ∧ sp.extinct = false then { sp with extinct := true } else sp) }

/-- `update()`: one full tick. -/
def update (E : Env) (st : EngineState) : EngineState :=
  let st := { st with time := st.time + 1 }
  let st := growPlants E st
  let st := critterLoop E st.critters.length st
  let st := { st with food := st.food.filter (fun fid => 0 < (st.fStore fid).energyValue) }
  markExtinctions st

def rootSpecies : Species :=
  { id := 0, parentId := none, generation := 0, color := ⟨200, 70, 50⟩,
    count := 0, extinct := false, firstAppearedAt := 0 }

/-- One initial-population spawn of `reset()` (two draws for the
position, then `spawnCritter`). -/
def spawnInitialCritter (E : Env) (st : EngineState) : EngineState :=
  let x := E.rand st.rng * (BIOME_WATER_WIDTH - 50) + 20
  let y := E.rand (st.rng + 1) * WORLD_HEIGHT
  spawnCritter E { st with rng := st.rng + 2 } x y 0 BASE_GENOME

/-- `reset()`: clear the collections and grids, register the root
species, spawn the initial population and the initial food scatter
(the id counter and random stream continue from the incoming state,
as in the source). -/
def resetState (E : Env) (st0 : EngineState) : EngineState :=
  let st := { st0 with
    critters := [], food := [], species := [rootSpecies], time := 0,
    foodGrid := List.replicate 1600 [], critterGrid := List.replicate 1600 [] }
  let st := iterate (spawnInitialCritter E) INITIAL_POPULATION st
  iterate (spawnRandomFood E) 5000 st

/-- A fresh engine object before the constructor's `reset()` call. -/
def freshState : EngineState :=
  { critters := [], food := [], cStore := fun _ => dummyCritter,
    fStore := fun _ => dummyFood, species := [], time := 0,
    foodGrid := List.replicate 1600 [], critterGrid := List.replicate 1600 [],
    nextId := 0, rng := 0 }

/-- The engine operations of the claim: spawn (called with a species id
the engine has already allocated, as every call site does), a full tick,
and a kill at a live index. -/
inductive Step (E : Env) : EngineState → EngineState → Prop where
  | spawn (st : EngineState) (x y : ℚ) (sid : ℕ) (g : Genome)
      (h : sid ≤ st.nextId) : Step E st (spawnCritter E st x y sid g)
  | tick (st : EngineState) : Step E st (update E st)
  | kill (st : EngineState) (idx : ℕ) (h : idx < st.critters.length) :
      Step E st (killCritter st idx)

/-- States reachable from a freshly constructed engine by engine
operations. -/
inductive Reachable (E : Env) : EngineState → Prop where
  | start (st0 : EngineState) : Reachable E (resetState E st0)
  | step {st st' : EngineState} : Reachable E st → Step E st st' →
      Reachable E st'

end Engine

/-! ## Generic helper lemmas -/

lemma getD_set_eq {α : Type} (l : List α) (i : ℕ) (x d : α) (h : i < l.length) :
    (l.set i x).getD i d = x := by
  rw [List.getD_eq_getElem?_getD, List.getElem?_set_self h]
  rfl

lemma getD_set_ne {α : Type} (l : List α) (i j : ℕ) (x d : α) (h : i ≠ j) :
    (l.set i x).getD j d = l.getD j d := by
  rw [List.getD_eq_getElem?_getD, List.getElem?_set_ne h, ← List.getD_eq_getElem?_getD]

lemma getD_replicate_nil {α : Type} (n i : ℕ) :
    ((List.replicate n ([] : List α)).getD i []) = [] := by
  rw [List.getD_eq_getElem?_getD, List.getElem?_replicate]
  split <;> rfl

lemma iterate_fixed {α : Type} (f : α → α) (st : α) (h : f st = st) :
    ∀ n, iterate f n st = st := by
  intro n
  induction n with
  | zero => rfl
  | succ n ih => rw [iterate, h, ih]

/-! ## Claim theorems -/

/-- A concrete environment for witnesses (the theorems hold for every
environment, so any instantiation will do). -/
def zeroEnv : Env :=
  ⟨fun _ => 0, fun _ => 0, fun _ => 0, fun _ _ => 0, 0, fun _ => 0⟩

section SpatialClaims

open SpatialHash

lemma getIndexZ_bounds (x y : ℚ) :
    0 ≤ getIndexZ x y ∧ getIndexZ x y < GRID_COLS * GRID_ROWS := by
  unfold getIndexZ
  have h1 : (0 : ℤ) ≤ max 0 (min (GRID_COLS - 1) ⌊x / GRID_CELL_SIZE⌋) := le_max_left _ _
  have h2 : max 0 (min (GRID_COLS - 1) ⌊x / GRID_CELL_SIZE⌋) ≤ GRID_COLS - 1 :=
    max_le (by norm_num [GRID_COLS]) (min_le_left _ _)
  have h3 : (0 : ℤ) ≤ max 0 (min (GRID_ROWS - 1) ⌊y / GRID_CELL_SIZE⌋) := le_max_left _ _
  have h4 : max 0 (min (GRID_ROWS - 1) ⌊y / GRID_CELL_SIZE⌋) ≤ GRID_ROWS - 1 :=
    max_le (by norm_num [GRID_ROWS]) (min_le_left _ _)
  simp only [GRID_COLS, GRID_ROWS] at *
  omega

lemma emptyHash_getD (i : ℕ) : emptyHash.getD i [] = [] :=
  getD_replicate_nil 1600 i

lemma getIndex_lt (x y : ℚ) : getIndex x y < 1600 := by
  have h := getIndexZ_bounds x y
  simp only [GRID_COLS, GRID_ROWS] at h
  unfold getIndex
  omega

/-- C9: for every position, including ones outside the world bounds, the
cell-index function clamps the column and row into range, so the result
lies in `[0, GRID_COLS * GRID_ROWS)`; the engine's `getGridIndex` computes
the same index, and every cell index the `query` neighborhood loop
touches is in range of the `GRID_COLS * GRID_ROWS`-bucket array. -/
theorem spatialIndex_clamped_in_range :
    (∀ x y : ℚ, 0 ≤ getIndexZ x y ∧ getIndexZ x y < GRID_COLS * GRID_ROWS) ∧
    (∀ x y : ℚ, getIndex x y < 1600) ∧
    (∀ x y : ℚ, Engine.getGridIndex x y = getIndex x y) ∧
    (∀ c : ℕ, ∀ i ∈ queryIdxs c, i < 1600) := by
  refine ⟨getIndexZ_bounds, getIndex_lt, ?_, ?_⟩
  · intro x y
    rfl
  · intro c i hi
    unfold queryIdxs at hi
    simp only [List.mem_flatMap, List.mem_filterMap, List.mem_cons,
      List.mem_singleton, List.not_mem_nil] at hi
    obtain ⟨dy, hdy, dx, hdx, hif⟩ := hi
    by_cases hc : 0 ≤ (c : ℤ) % GRID_COLS + dx ∧ (c : ℤ) % GRID_COLS + dx < GRID_COLS ∧
        0 ≤ (c : ℤ) / GRID_COLS + dy ∧ (c : ℤ) / GRID_COLS + dy < GRID_ROWS
    · rw [if_pos hc] at hif
      obtain ⟨h1, h2, h3, h4⟩ := hc
      simp only [Option.some.injEq] at hif
      subst hif
      simp only [GRID_COLS, GRID_ROWS] at *
      omega
    · rw [if_neg hc] at hif
      exact absurd hif (by simp)

/-- C9 witness: an out-of-bounds position still lands in range, and a
concrete neighborhood index is in range. -/
theorem spatialIndex_clamped_in_range_witness :
    getIndex 12345 (-77) < 1600 ∧ (41 : ℕ) < 1600 :=
  ⟨spatialIndex_clamped_in_range.2.1 12345 (-77),
   spatialIndex_clamped_in_range.2.2.2 0 41 (by decide)⟩

/-- After `add` then `updateSpatialIndex` on a hash holding only this
entity, every bucket is empty except the bucket of the current
position, which holds exactly one entry carrying the entity's id. -/
lemma relocate_cells (e : Entity) (x2 y2 : ℚ) :
    ∃ w : Entity, w.eid = e.eid ∧ ∀ j,
      ((updateSpatialIndex (add emptyHash e).1
        { (add emptyHash e).2 with ex := x2, ey := y2 }).1.getD j []) =
      if j = getIndex x2 y2 then [w] else [] := by
  have hlen : emptyHash.length = 1600 := List.length_replicate 1600 []
  have hi1 : getIndex e.ex e.ey < 1600 := getIndex_lt _ _
  have hi2 : getIndex x2 y2 < 1600 := getIndex_lt _ _
  have hadd : add emptyHash e =
      (emptyHash.set (getIndex e.ex e.ey) [{ e with eGridIndex := getIndex e.ex e.ey }],
        { e with eGridIndex := getIndex e.ex e.ey }) := by
    simp only [add]
    rw [emptyHash_getD, List.nil_append]
  rw [hadd]
  by_cases hne : getIndex x2 y2 ≠ getIndex e.ex e.ey
  · refine ⟨{ e with ex := x2, ey := y2, eGridIndex := getIndex x2 y2 }, rfl, ?_⟩
    intro j
    have hrem : remove
        (emptyHash.set (getIndex e.ex e.ey) [{ e with eGridIndex := getIndex e.ex e.ey }])
        { e with ex := x2, ey := y2, eGridIndex := getIndex e.ex e.ey } =
        (emptyHash.set (getIndex e.ex e.ey)
          [{ e with eGridIndex := getIndex e.ex e.ey }]).set (getIndex e.ex e.ey) [] := by
      simp only [remove]
      rw [getD_set_eq _ _ _ _ (by rw [hlen]; exact hi1)]
      simp [List.eraseP]
    simp only [updateSpatialIndex, if_pos hne, hrem]
    have hmid : ((emptyHash.set (getIndex e.ex e.ey)
        [{ e with eGridIndex := getIndex e.ex e.ey }]).set (getIndex e.ex e.ey) []).getD
        (getIndex x2 y2) [] = [] := by
      rw [getD_set_ne _ _ _ _ _ (fun h => hne h.symm),
        getD_set_ne _ _ _ _ _ (fun h => hne h.symm)]
      exact emptyHash_getD _
    rw [hmid]
    by_cases hj : j = getIndex x2 y2
    · subst hj
      rw [if_pos rfl, getD_set_eq _ _ _ _ (by simp only [List.length_set, hlen]; exact hi2)]
      rfl
    · rw [if_neg hj, getD_set_ne _ _ _ _ _ (fun h => hj h.symm)]
      by_cases hj1 : j = getIndex e.ex e.ey
      · subst hj1
        rw [getD_set_eq _ _ _ _ (by simp only [List.length_set, hlen]; exact hi1)]
      · rw [getD_set_ne _ _ _ _ _ (fun h => hj1 h.symm),
          getD_set_ne _ _ _ _ _ (fun h => hj1 h.symm)]
        exact emptyHash_getD _
  · push_neg at hne
    refine ⟨{ e with eGridIndex := getIndex e.ex e.ey }, rfl, ?_⟩
    intro j
    simp only [updateSpatialIndex]
    rw [if_neg (not_not_intro hne)]
    by_cases hj : j = getIndex x2 y2
    · subst hj
      rw [if_pos rfl, hne, getD_set_eq _ _ _ _ (by rw [hlen]; exact hi1)]
    · rw [if_neg hj, getD_set_ne, emptyHash_getD]
      rw [hne] at hj
      exact fun h => hj h.symm

/-- C7: after inserting an entity and relocating it to a changed
position, a query finds it exactly when the queried 3×3 neighborhood
contains the cell of its current position, and in particular never
through the cell computed from its former position alone. -/
theorem spatialHash_relocate_found_only_at_current (e : Entity) (x2 y2 : ℚ) (c : ℕ) :
    ((∃ z ∈ query (updateSpatialIndex (add emptyHash e).1
        { (add emptyHash e).2 with ex := x2, ey := y2 }).1 c, z.eid = e.eid) ↔
      getIndex x2 y2 ∈ queryIdxs c) ∧
    (getIndex x2 y2 ∉ queryIdxs c →
      ¬ ∃ z ∈ query (updateSpatialIndex (add emptyHash e).1
        { (add emptyHash e).2 with ex := x2, ey := y2 }).1 c, z.eid = e.eid) := by
  obtain ⟨w, hweid, hcells⟩ := relocate_cells e x2 y2
  have main : (∃ z ∈ query (updateSpatialIndex (add emptyHash e).1
      { (add emptyHash e).2 with ex := x2, ey := y2 }).1 c, z.eid = e.eid) ↔
      getIndex x2 y2 ∈ queryIdxs c := by
    constructor
    · rintro ⟨z, hz, hzeid⟩
      simp only [query, List.mem_flatMap] at hz
      obtain ⟨j, hj, hzj⟩ := hz
      rw [hcells j] at hzj
      by_cases hjx : j = getIndex x2 y2
      · exact hjx ▸ hj
      · rw [if_neg hjx] at hzj
        exact absurd hzj (List.not_mem_nil _)
    · intro hmem
      refine ⟨w, ?_, hweid⟩
      simp only [query, List.mem_flatMap]
      refine ⟨getIndex x2 y2, hmem, ?_⟩
      rw [hcells, if_pos rfl]
      exact List.mem_singleton_self _
  exact ⟨main, fun hnot hex => hnot (main.mp hex)⟩

end SpatialClaims

section TerrainClaims

open TerrainSystem

/-- C8: the biome classifier decides by elevation thresholds first
(deep-ocean below 0.25, ocean below 0.45, beach below 0.50, mountain
above 0.85), and in the middle elevation band moisture splits the
result (jungle above 0.6, forest above 0.4, plains otherwise) — for
every coordinate and every noise permutation table. -/
theorem getBiomeAt_threshold_classification (perm : List ℕ) (x y : ℚ) :
    (getElevation perm x y < 1/4 → getBiomeAt perm x y = BiomeType.deep_ocean) ∧
    (1/4 ≤ getElevation perm x y → getElevation perm x y < 45/100 →
      getBiomeAt perm x y = BiomeType.ocean) ∧
    (45/100 ≤ getElevation perm x y → getElevation perm x y < 1/2 →
      getBiomeAt perm x y = BiomeType.beach) ∧
    (1/2 ≤ getElevation perm x y → 85/100 < getElevation perm x y →
      getBiomeAt perm x y = BiomeType.mountain) ∧
    (1/2 ≤ getElevation perm x y → getElevation perm x y ≤ 85/100 →
      6/10 < getMoisture perm x y → getBiomeAt perm x y = BiomeType.jungle) ∧
    (1/2 ≤ getElevation perm x y → getElevation perm x y ≤ 85/100 →
      4/10 < getMoisture perm x y → getMoisture perm x y ≤ 6/10 →
      getBiomeAt perm x y = BiomeType.forest) ∧
    (1/2 ≤ getElevation perm x y → getElevation perm x y ≤ 85/100 →
      getMoisture perm x y ≤ 4/10 → getBiomeAt perm x y = BiomeType.plains) := by
  unfold getBiomeAt
  simp only [BIOME_THRESHOLDS_DEEP_OCEAN, BIOME_THRESHOLDS_OCEAN,
    BIOME_THRESHOLDS_BEACH, BIOME_THRESHOLDS_MOUNTAIN]
  refine ⟨?_, ?_, ?_, ?_, ?_, ?_, ?_⟩ <;>
    intros <;> split_ifs <;> first | rfl | linarith

/-- C8 witness: at the all-zero permutation table and the origin the
elevation is exactly 1/2 (middle band) and the moisture is 181/512,
which is at most 0.4, so the classifier lands on plains. -/
theorem getBiomeAt_threshold_classification_witness :
    getBiomeAt (List.replicate 512 0) 0 0 = BiomeType.plains :=
  (getBiomeAt_threshold_classification (List.replicate 512 0) 0 0).2.2.2.2.2.2
    (by norm_num [getElevation, noise, fade, mix, dot, grad3, TERRAIN_SCALE,
      List.getD_eq_getElem?_getD, List.getElem?_replicate])
    (by norm_num [getElevation, noise, fade, mix, dot, grad3, TERRAIN_SCALE,
      List.getD_eq_getElem?_getD, List.getElem?_replicate])
    (by norm_num +decide [getMoisture, noise, fade, mix, dot, grad3, TERRAIN_SCALE,
      List.getD_eq_getElem?_getD, List.getElem?_replicate])

end TerrainClaims

section MetabolismClaim

set_option maxHeartbeats 2000000 in
/-- C5: for every critter with non-negative genome traits, one call to
the metabolism function strictly decreases the energy — the total
deducted cost is strictly positive in every behavioral state, every
biome, and under any (non-negative) square root. -/
theorem calculateMetabolism_strictly_decreases (E : Env) (perm : List ℕ) (c : Critter)
    (hsqrt : ∀ q : ℚ, 0 ≤ q → 0 ≤ E.sqrt q)
    (hsize : 0 ≤ c.genome.size) (hlimb : 0 ≤ c.genome.limbCount)
    (hmouth : 0 ≤ c.genome.mouthSize) (hdef : 0 ≤ c.genome.defense) :
    (CreatureSystem.calculateMetabolism E perm c).energy < c.energy := by
  have hspeed : 0 ≤ E.sqrt (c.vx ^ 2 + c.vy ^ 2) := hsqrt _ (by positivity)
  have habs : (0 : ℚ) ≤ |c.genome.amphibious - 0| := abs_nonneg _
  have habs1 : (0 : ℚ) ≤ |c.genome.amphibious - 1| := abs_nonneg _
  simp only [CreatureSystem.calculateMetabolism, ENERGY_COST_EXIST,
    ENERGY_COST_PER_LIMB, ENERGY_COST_MOUTH_SIZE, ENERGY_COST_MOVE_BASE,
    ENERGY_COST_DEFENSE, SUFFOCATION_PENALTY, ENERGY_COST_RESTING_MULTIPLIER]
  have h1 : (0:ℚ) ≤ E.sqrt (c.vx ^ 2 + c.vy ^ 2) * (c.genome.size * (1/10)) * (1/50) :=
    mul_nonneg (mul_nonneg hspeed (mul_nonneg hsize (by norm_num))) (by norm_num)
  split_ifs <;>
    (try norm_num [sub_zero] at * ) <;>
    nlinarith [div_nonneg h1 (show (0:ℚ) ≤ 6/5 by norm_num),
      div_nonneg h1 (show (0:ℚ) ≤ 1/5 by norm_num),
      div_nonneg h1 (show (0:ℚ) ≤ 6/25 by norm_num),
      div_nonneg h1 (show (0:ℚ) ≤ 1 by norm_num),
      div_nonneg h1 (show (0:ℚ) ≤ 1/10 by norm_num),
      div_nonneg h1 (show (0:ℚ) ≤ 11/100 by norm_num),
      div_nonneg h1 (show (0:ℚ) ≤ 11/10 by norm_num),
      mul_nonneg hspeed hsize, mul_nonneg hsize hsize,
      mul_nonneg hdef hsize, hspeed, hsize, hlimb, hmouth, hdef]

/-- C5 witness: the base genome at the origin, with the zero square
root. -/
theorem calculateMetabolism_strictly_decreases_witness :
    (CreatureSystem.calculateMetabolism zeroEnv
      (List.replicate 512 0) Engine.dummyCritter).energy <
      Engine.dummyCritter.energy :=
  calculateMetabolism_strictly_decreases _ _ _
    (fun _ _ => le_refl 0) (by norm_num [Engine.dummyCritter, Engine.dummyGenome, BASE_GENOME])
    (by norm_num [Engine.dummyCritter, Engine.dummyGenome, BASE_GENOME])
    (by norm_num [Engine.dummyCritter, Engine.dummyGenome, BASE_GENOME])
    (by norm_num [Engine.dummyCritter, Engine.dummyGenome, BASE_GENOME])

end MetabolismClaim

section BehaviorClaim

open BehaviorSystem

/-- C6: each `think` evaluation tries the arbitration rules in order and
the first match wins: fear above 0.6 flees toward the nearest sensed
predator; otherwise hunger above 0.4 hunts the nearest qualifying prey
(carnivore) or seeks the nearest positive-energy food (herbivore);
otherwise fatigue above 0.5 with no sensed predator rests; otherwise the
state is wandering — with fear `1 - predatorDist/senseRadius` (0 without
a predator) and hunger `max 0 (1 - energy/reproThreshold)`. -/
theorem think_first_match_arbitration (E : Env) (k : ℕ) (c : Critter)
    (neighbors : List Critter) (food : List Food) (time : ℚ) :
    (fearScoreOf E c neighbors > 6/10 →
      (scanNeighbors E c neighbors).nearestPredator.isSome = true) ∧
    ((fearScoreOf E c neighbors > 6/10 ∧
        (scanNeighbors E c neighbors).nearestPredator.isSome = true) →
      ∃ p, (scanNeighbors E c neighbors).nearestPredator = some p ∧
        (think E k c neighbors food time).cstate = CState.fleeing ∧
        (think E k c neighbors food time).targetId = some p.id ∧
        (think E k c neighbors food time).targetPos = some (p.px, p.py)) ∧
    (¬ (fearScoreOf E c neighbors > 6/10 ∧
        (scanNeighbors E c neighbors).nearestPredator.isSome = true) →
      (hungerScoreOf c > 4/10 ∧ c.genome.diet > 1/2 ∧
        (scanNeighbors E c neighbors).nearestPrey.isSome = true) →
      ∃ pr, (scanNeighbors E c neighbors).nearestPrey = some pr ∧
        (think E k c neighbors food time).cstate = CState.hunting ∧
        (think E k c neighbors food time).targetId = some pr.id) ∧
    (¬ (fearScoreOf E c neighbors > 6/10 ∧
        (scanNeighbors E c neighbors).nearestPredator.isSome = true) →
      ¬ (hungerScoreOf c > 4/10 ∧ c.genome.diet > 1/2 ∧
        (scanNeighbors E c neighbors).nearestPrey.isSome = true) →
      (hungerScoreOf c > 4/10 ∧ ¬ (c.genome.diet > 1/2) ∧
        (scanFood E c food).1.isSome = true) →
      ∃ f, (scanFood E c food).1 = some f ∧
        (think E k c neighbors food time).cstate = CState.seeking_food ∧
        (think E k c neighbors food time).targetId = some f.id) ∧
    (¬ (fearScoreOf E c neighbors > 6/10 ∧
        (scanNeighbors E c neighbors).nearestPredator.isSome = true) →
      ¬ (hungerScoreOf c > 4/10 ∧ c.genome.diet > 1/2 ∧
        (scanNeighbors E c neighbors).nearestPrey.isSome = true) →
      ¬ (hungerScoreOf c > 4/10 ∧ ¬ (c.genome.diet > 1/2) ∧
        (scanFood E c food).1.isSome = true) →
      (fatigueScoreOf c > 1/2 ∧ (scanNeighbors E c neighbors).nearestPredator = none) →
      (think E k c neighbors food time).cstate = CState.resting ∧
      (think E k c neighbors food time).targetId = none) ∧
    (¬ (fearScoreOf E c neighbors > 6/10 ∧
        (scanNeighbors E c neighbors).nearestPredator.isSome = true) →
      ¬ (hungerScoreOf c > 4/10 ∧ c.genome.diet > 1/2 ∧
        (scanNeighbors E c neighbors).nearestPrey.isSome = true) →
      ¬ (hungerScoreOf c > 4/10 ∧ ¬ (c.genome.diet > 1/2) ∧
        (scanFood E c food).1.isSome = true) →
      ¬ (fatigueScoreOf c > 1/2 ∧ (scanNeighbors E c neighbors).nearestPredator = none) →
      (think E k c neighbors food time).cstate = CState.wandering) := by
  have hfood : ∀ (hnc : ¬ (c.genome.diet > 1/2)),
      (if ¬ (c.genome.diet > 1/2) then scanFood E c food else (none, none)) =
        scanFood E c food := fun hnc => if_pos hnc
  refine ⟨?_, ?_, ?_, ?_, ?_, ?_⟩
  · intro hf
    rcases hp : (scanNeighbors E c neighbors).nearestPredator with _ | p
    · rcases hd : (scanNeighbors E c neighbors).predatorDist with _ | d <;>
        simp only [fearScoreOf, hp, hd] at hf <;> norm_num at hf
    · rfl
  · intro hG1
    simp only [think]
    rw [if_pos hG1]
    obtain ⟨p, hp⟩ := Option.isSome_iff_exists.mp hG1.2
    rw [hp]
    exact ⟨p, rfl, rfl, rfl, rfl⟩
  · intro hn1 hG2
    simp only [think]
    rw [if_neg hn1, if_pos hG2]
    obtain ⟨p, hp⟩ := Option.isSome_iff_exists.mp hG2.2.2
    rw [hp]
    exact ⟨p, rfl, rfl, rfl⟩
  · intro hn1 hn2 hG3
    simp only [think]
    rw [hfood hG3.2.1, if_neg hn1, if_neg hn2, if_pos hG3]
    obtain ⟨f, hf⟩ := Option.isSome_iff_exists.mp hG3.2.2
    rw [hf]
    exact ⟨f, rfl, rfl, rfl⟩
  · intro hn1 hn2 hn3 hG4
    simp only [think]
    by_cases hcarn : c.genome.diet > 1/2
    · rw [if_neg (not_not_intro hcarn), if_neg hn1, if_neg hn2,
        if_neg (fun h => h.2.1 hcarn), if_pos hG4]
      exact ⟨rfl, rfl⟩
    · rw [hfood hcarn, if_neg hn1, if_neg hn2, if_neg hn3, if_pos hG4]
      exact ⟨rfl, rfl⟩
  · intro hn1 hn2 hn3 hn4
    simp only [think]
    by_cases hcarn : c.genome.diet > 1/2
    · rw [if_neg (not_not_intro hcarn), if_neg hn1, if_neg hn2,
        if_neg (fun h => h.2.1 hcarn), if_neg hn4]
      by_cases hw : c.cstate ≠ CState.wandering
      · rw [if_pos hw]
      · rw [if_neg hw]
        exact not_not.mp hw
    · rw [hfood hcarn, if_neg hn1, if_neg hn2, if_neg hn3, if_neg hn4]
      by_cases hw : c.cstate ≠ CState.wandering
      · rw [if_pos hw]
      · rw [if_neg hw]
        exact not_not.mp hw

/-- A herbivore and a larger carnivore right on top of it, for the C6
witness. -/
def c6Herbivore : Critter := Engine.dummyCritter

def c6Predator : Critter :=
  { Engine.dummyCritter with id := 1, genome := { BASE_GENOME with diet := 1 } }

/-- C6 witness: the herbivore senses the adjacent predator (fear 1) and
the arbitration picks fleeing. -/
theorem think_first_match_arbitration_witness :
    (think zeroEnv 0 c6Herbivore [c6Predator] [] 0).cstate = CState.fleeing := by
  have harb := (think_first_match_arbitration zeroEnv 0 c6Herbivore [c6Predator] [] 0).2.1
  have hscan : scanNeighbors zeroEnv c6Herbivore [c6Predator] =
      ⟨some c6Predator, some 0, none, none⟩ := by
    simp only [scanNeighbors, List.foldl, c6Herbivore, c6Predator,
      Engine.dummyCritter, Engine.dummyGenome, BASE_GENOME, distE, zeroEnv, ltMin]
    norm_num
  obtain ⟨p, _, hst, _, _⟩ := harb ⟨by rw [fearScoreOf, hscan]; norm_num,
    by rw [hscan]; rfl⟩
  exact hst

end BehaviorClaim

section GeneticsClaim

open GeneticSystem

/-- C1: in `createOffspring`, if the accumulated mutation magnitude does
not exceed the speciation threshold the offspring keeps the parent's
speciesId and no species record is created; if it exceeds the
threshold, a new Species record is created whose parentId is the
parent's speciesId, whose generation is the parent species' generation
plus one, and whose count starts at 0, and the offspring receives the
new species id. -/
theorem createOffspring_speciation_rule (E : Env) (k : ℕ) (parent : Critter)
    (speciesMap : List Species) (time : ℕ) (suffix : ℕ) (ps : Species)
    (hps : speciesMap.find? (fun sp => sp.id = parent.speciesId) = some ps) :
    ((createOffspring E k parent speciesMap time suffix).metric ≤ SPECIATION_THRESHOLD →
      (createOffspring E k parent speciesMap time suffix).speciesId = parent.speciesId ∧
      (createOffspring E k parent speciesMap time suffix).newSpecies = none) ∧
    ((createOffspring E k parent speciesMap time suffix).metric > SPECIATION_THRESHOLD →
      ∃ ns : Species,
        (createOffspring E k parent speciesMap time suffix).newSpecies = some ns ∧
        ns.parentId = some parent.speciesId ∧
        ns.generation = ps.generation + 1 ∧
        ns.count = 0 ∧ ns.extinct = false ∧
        (createOffspring E k parent speciesMap time suffix).speciesId = ns.id) := by
  have hpsid : ps.id = parent.speciesId := by
    have := List.find?_some hps
    simpa using this
  simp only [createOffspring, hps]
  split_ifs with hm
  · constructor
    · intro hle
      simp only [Offspring.metric] at hle
      exact absurd hm (not_lt.mpr hle)
    · intro _
      refine ⟨_, rfl, ?_, ?_, rfl, rfl, rfl⟩
      · simp [Option.map, hpsid]
      · rfl
  · constructor
    · intro _
      exact ⟨rfl, rfl⟩
    · intro hgt
      simp only [Offspring.metric] at hgt
      exact absurd hgt hm

/-- C1 witness: a concrete parent and registry; with the all-zero
random stream every mutation fires and the accumulated magnitude 2.5
exceeds the threshold 0.5, founding a new species of generation 1. -/
theorem createOffspring_speciation_rule_witness :
    ∃ ns : Species,
      (createOffspring zeroEnv 0 Engine.dummyCritter [Engine.rootSpecies] 3 7).newSpecies = some ns ∧
      ns.parentId = some Engine.dummyCritter.speciesId ∧
      ns.generation = Engine.rootSpecies.generation + 1 ∧
      ns.count = 0 ∧ ns.extinct = false ∧
      (createOffspring zeroEnv 0 Engine.dummyCritter [Engine.rootSpecies] 3 7).speciesId = ns.id := by
  refine (createOffspring_speciation_rule zeroEnv 0 Engine.dummyCritter
    [Engine.rootSpecies] 3 7 Engine.rootSpecies ?_).2 ?_
  · simp [Engine.rootSpecies, Engine.dummyCritter, List.find?]
  · have hm : (mutationPhase zeroEnv 0 Engine.dummyCritter.genome).metric = 5/2 := by
      norm_num [mutationPhase, mutateT, zeroEnv, CFG_SPEED, CFG_SIZE, CFG_SENSE,
        CFG_LIMB_LENGTH, CFG_MOUTH_SIZE, CFG_REPRO_THRESHOLD, CFG_DEFENSE,
        CFG_AMPHIBIOUS, CFG_LIMB_COUNT, CFG_DIET, Engine.dummyCritter,
        Engine.dummyGenome, BASE_GENOME]
      rw [abs_of_nonneg, abs_of_nonneg, abs_of_nonneg, abs_of_nonneg] <;> norm_num
    simp only [createOffspring, SPECIATION_THRESHOLD]
    rw [apply_ite Offspring.metric]
    simp [hm]
    norm_num

end GeneticsClaim

section ReproduceClaim

/-- C3: when a critter reproduces (population below the cap; its id
predates the baby's fresh id), the parent's post-reproduction energy is
exactly 50% of its pre-reproduction energy, the newly spawned offspring
is the last critter of the array with the fresh id, and its energy is
exactly 40% of the parent's pre-reproduction energy. -/
theorem reproduce_energy_split (E : Env) (st : Engine.EngineState) (cid : ℕ)
    (hpop : st.critters.length < MAX_POPULATION) (hfresh : cid ≠ st.nextId) :
    ((Engine.reproduce E st cid).cStore cid).energy =
      (st.cStore cid).energy * (1/2) ∧
    (Engine.reproduce E st cid).critters.getLastD 0 = st.nextId ∧
    ((Engine.reproduce E st cid).cStore st.nextId).energy =
      (st.cStore cid).energy * (4/10) := by
  have hpop' : ¬ st.critters.length ≥ MAX_POPULATION := not_le.mpr hpop
  simp only [Engine.reproduce, if_neg hpop']
  split_ifs with hm <;>
    refine ⟨?_, ?_, ?_⟩ <;>
      simp [Engine.modC, Engine.spawnCritter, Engine.gridPush,
        Engine.bumpCount, List.getLastD_concat, hfresh] <;>
      ring

/-- A one-critter engine state (parent id 0 with 200 energy, next fresh
id 1) for the C3 witness. -/
def c3State : Engine.EngineState :=
  { critters := [0], food := [],
    cStore := fun _ => { Engine.dummyCritter with energy := 200 },
    fStore := fun _ => Engine.dummyFood,
    species := [Engine.rootSpecies], time := 0,
    foodGrid := List.replicate 1600 [], critterGrid := List.replicate 1600 [],
    nextId := 1, rng := 0 }

/-- C3 witness: reproducing the 200-energy parent leaves it with 100 and
gives the baby 80. -/
theorem reproduce_energy_split_witness :
    ((Engine.reproduce zeroEnv c3State 0).cStore 0).energy = 100 ∧
    ((Engine.reproduce zeroEnv c3State 0).cStore 1).energy = 80 := by
  have h := reproduce_energy_split zeroEnv c3State 0
    (by norm_num [c3State, MAX_POPULATION]) (by norm_num [c3State])
  constructor
  · rw [h.1]
    norm_num [c3State]
  · have h2 := h.2.2
    norm_num [c3State] at h2 ⊢
    exact h2

end ReproduceClaim

section FoodOnceClaim

/-- The food scan of `seekFood` only ever selects an item whose energy
value is still positive (the `energyValue <= 0` guard). -/
lemma scanFoodCells_selects_positive (E : Env) (st : Engine.EngineState) (cid : ℕ)
    {fid : ℕ} {d : Option ℚ}
    (h : Engine.scanFoodCells E st cid = (some fid, d)) :
    0 < (st.fStore fid).energyValue := by
  unfold Engine.scanFoodCells at h
  have key : ∀ (l : List ℕ) (acc : Option ℕ × Option ℚ),
      (∀ g, acc.1 = some g → 0 < (st.fStore g).energyValue) →
      ∀ g, (l.foldl (fun acc fid =>
        if (st.fStore fid).energyValue ≤ 0 then acc
        else
          if distE E ((st.cStore cid).px, (st.cStore cid).py)
              ((st.fStore fid).px, (st.fStore fid).py) <
              (st.cStore cid).genome.senseRadius ∧
            ltMin (distE E ((st.cStore cid).px, (st.cStore cid).py)
              ((st.fStore fid).px, (st.fStore fid).py)) acc.2 = true then
            (some fid, some (distE E ((st.cStore cid).px, (st.cStore cid).py)
              ((st.fStore fid).px, (st.fStore fid).py)))
          else acc) acc).1 = some g → 0 < (st.fStore g).energyValue := by
    intro l
    induction l with
    | nil => intro acc hacc g hg; exact hacc g hg
    | cons b t ih =>
      intro acc hacc g
      simp only [List.foldl_cons]
      apply ih
      intro g' hg'
      split_ifs at hg' with h1 h2
      · exact hacc g' hg'
      · simp only [Prod.fst] at hg'
        cases hg'
        exact lt_of_not_le h1
      · exact hacc g' hg'
  exact key ((Engine.getNeighborIndices (st.cStore cid).gridIndex).flatMap
      (Engine.cellFood st)) (none, none) (by intro g hg; cases hg) fid
    (by rw [show (((Engine.getNeighborIndices (st.cStore cid).gridIndex).flatMap
      (Engine.cellFood st)).foldl _ (none, none)) = (some fid, d) from h])

/-- Erasing one occurrence removes the element entirely when it occurs
at most once. -/
lemma not_mem_eraseP_self {l : List ℕ} {a : ℕ} (h : l.count a ≤ 1) :
    a ∉ l.eraseP (fun x => x = a) := by
  induction l with
  | nil => simp [List.eraseP]
  | cons b t ih =>
    by_cases hb : b = a
    · subst hb
      rw [List.count_cons_self] at h
      have ht : t.count b = 0 := by omega
      have hb2 : (b :: t).eraseP (fun x => x = b) = t := by
        simp [List.eraseP_cons]
      rw [hb2]
      exact List.count_eq_zero.mp ht
    · rw [List.count_cons_of_ne (fun hh => hb hh.symm)] at h
      have hb2 : (b :: t).eraseP (fun x => x = a) =
          b :: t.eraseP (fun x => x = a) := by
        simp [List.eraseP_cons, hb]
      rw [hb2]
      intro hmem
      rcases List.mem_cons.mp hmem with h1 | h1
      · exact hb h1.symm
      · exact ih h h1

/-- `modC` does not touch the food side. -/
lemma modC_food (st : Engine.EngineState) (cid : ℕ) (f : Critter → Critter) :
    (Engine.modC st cid f).fStore = st.fStore ∧
    (Engine.modC st cid f).foodGrid = st.foodGrid := ⟨rfl, rfl⟩

lemma modC_cStore_genome (st : Engine.EngineState) (cid : ℕ) (f : Critter → Critter)
    (hf : ∀ c, (f c).genome = c.genome) (i : ℕ) :
    ((Engine.modC st cid f).cStore i).genome = (st.cStore i).genome := by
  simp only [Engine.modC]
  split
  · rw [hf]
  · rfl

lemma normalizeVelocity_genome (E : Env) (st : Engine.EngineState) (cid i : ℕ) :
    ((Engine.normalizeVelocity E st cid).cStore i).genome = (st.cStore i).genome := by
  apply modC_cStore_genome
  intro c
  dsimp only
  split_ifs <;> rfl

/-- `steerTowards` preserves genomes and the food side. -/
lemma steer_preserves (E : Env) (st : Engine.EngineState) (cid : ℕ) (t : ℚ × ℚ) :
    (Engine.steerTowards E st cid t).fStore = st.fStore ∧
    (Engine.steerTowards E st cid t).foodGrid = st.foodGrid ∧
    ∀ i, ((Engine.steerTowards E st cid t).cStore i).genome = (st.cStore i).genome := by
  refine ⟨rfl, rfl, ?_⟩
  intro i
  show ((Engine.normalizeVelocity E (Engine.modC st cid _) cid).cStore i).genome = _
  rw [normalizeVelocity_genome]
  apply modC_cStore_genome
  intro c
  dsimp only
  split_ifs <;> rfl

lemma steer_cStore_genome (E : Env) (st : Engine.EngineState) (cid : ℕ)
    (t : ℚ × ℚ) (i : ℕ) :
    ((Engine.steerTowards E st cid t).cStore i).genome = (st.cStore i).genome :=
  (steer_preserves E st cid t).2.2 i

lemma modC_state_target_genome (st : Engine.EngineState) (cid : ℕ) (v : CState)
    (w : Option ℕ) (i : ℕ) :
    ((Engine.modC st cid (fun x => { x with cstate := v, targetId := w })).cStore i).genome =
      (st.cStore i).genome :=
  modC_cStore_genome st cid (fun x => { x with cstate := v, targetId := w })
    (fun _ => rfl) i

lemma steer_fStore (E : Env) (st : Engine.EngineState) (cid : ℕ) (t : ℚ × ℚ) :
    (Engine.steerTowards E st cid t).fStore = st.fStore := rfl

lemma steer_foodGrid (E : Env) (st : Engine.EngineState) (cid : ℕ) (t : ℚ × ℚ) :
    (Engine.steerTowards E st cid t).foodGrid = st.foodGrid := rfl

lemma modC_fStore (st : Engine.EngineState) (cid : ℕ) (f : Critter → Critter) :
    (Engine.modC st cid f).fStore = st.fStore := rfl

lemma modC_foodGrid (st : Engine.EngineState) (cid : ℕ) (f : Critter → Critter) :
    (Engine.modC st cid f).foodGrid = st.foodGrid := rfl

lemma modF_foodGrid (st : Engine.EngineState) (fid : ℕ) (f : Food → Food) :
    (Engine.modF st fid f).foodGrid = st.foodGrid := rfl

/-- C10: when `seekFood` selects a food item and eats it, the item's
energy was positive, is zeroed on consumption, the item is removed from
the food grid entirely (it was placed once, in the cell it caches), and
no later food scan — by any critter — can select it again. -/
theorem seekFood_food_eaten_at_most_once (E : Env) (st : Engine.EngineState)
    (cid fid : ℕ) (d : ℚ)
    (hscan : Engine.scanFoodCells E st cid = (some fid, some d))
    (heat : d < (st.cStore cid).genome.size + (st.cStore cid).genome.mouthSize / 2)
    (hplace : ∀ j, j ≠ (st.fStore fid).gridIndex → fid ∉ st.foodGrid.getD j [])
    (hcount : (st.foodGrid.getD ((st.fStore fid).gridIndex) []).count fid ≤ 1) :
    0 < (st.fStore fid).energyValue ∧
    ((Engine.seekFood E st cid).fStore fid).energyValue = 0 ∧
    (∀ j, fid ∉ (Engine.seekFood E st cid).foodGrid.getD j []) ∧
    (∀ cid2 fid2 d2,
      Engine.scanFoodCells E (Engine.seekFood E st cid) cid2 = (some fid2, some d2) →
      fid2 ≠ fid) := by
  have hpos := scanFoodCells_selects_positive E st cid hscan
  have hB : ((Engine.seekFood E st cid).fStore fid).energyValue = 0 := by
    simp only [Engine.seekFood, hscan]
    rw [steer_cStore_genome, modC_state_target_genome, if_pos heat]
    simp [Engine.modC, Engine.modF, steer_fStore]
  have hC : ∀ j, fid ∉ (Engine.seekFood E st cid).foodGrid.getD j [] := by
    intro j
    simp only [Engine.seekFood, hscan]
    rw [steer_cStore_genome, modC_state_target_genome, if_pos heat]
    simp only [Engine.modC, Engine.modF, Engine.gridRemove, steer_fStore,
      steer_foodGrid, modC_fStore, modC_foodGrid, modF_foodGrid]
    by_cases hj : j = (st.fStore fid).gridIndex
    · subst hj
      by_cases hl : (st.fStore fid).gridIndex < st.foodGrid.length
      · rw [getD_set_eq _ _ _ _ hl]
        exact not_mem_eraseP_self hcount
      · rw [List.set_eq_of_length_le (le_of_not_lt hl),
          List.getD_eq_default _ _ (le_of_not_lt hl)]
        exact List.not_mem_nil _
    · rw [getD_set_ne _ _ _ _ _ (fun h => hj h.symm)]
      exact hplace j hj
  refine ⟨hpos, hB, hC, ?_⟩
  intro cid2 fid2 d2 hsc2 heq
  have hp2 := scanFoodCells_selects_positive E _ cid2 hsc2
  rw [heq, hB] at hp2
  exact lt_irrefl 0 hp2

/-- A one-critter, one-food state (food id 5 in cell 0, next to the
critter) for the C10 witness. -/
def c10State : Engine.EngineState :=
  { critters := [0], food := [5],
    cStore := fun _ => Engine.dummyCritter,
    fStore := fun i => { Engine.dummyFood with id := i, energyValue := 100 },
    species := [Engine.rootSpecies], time := 0,
    foodGrid := (List.replicate 1600 []).set 0 [5],
    critterGrid := (List.replicate 1600 []).set 0 [0],
    nextId := 6, rng := 0 }

lemma c10_scan : Engine.scanFoodCells zeroEnv c10State 0 = (some 5, some 0) := by
  have hnb : Engine.getNeighborIndices 0 = [0, 1, 40, 41] := by decide
  have hcell0 : Engine.cellFood c10State 0 = [5] := by
    show ((List.replicate 1600 ([] : List ℕ)).set 0 [5]).getD 0 [] = [5]
    rw [getD_set_eq _ _ _ _ (by rw [List.length_replicate]; norm_num)]
  have hcells : ∀ j, j ≠ 0 → Engine.cellFood c10State j = [] := by
    intro j hj
    show ((List.replicate 1600 ([] : List ℕ)).set 0 [5]).getD j [] = []
    rw [getD_set_ne _ _ _ _ _ (fun h => hj h.symm)]
    exact getD_replicate_nil 1600 j
  show Engine.scanFoodCells zeroEnv c10State 0 = (some 5, some 0)
  unfold Engine.scanFoodCells
  dsimp only
  have hgi : (c10State.cStore 0).gridIndex = 0 := rfl
  rw [hgi, hnb]
  simp only [List.flatMap_cons, List.flatMap_nil, hcell0,
    hcells 1 (by norm_num), hcells 40 (by norm_num), hcells 41 (by norm_num),
    List.append_nil, List.nil_append, List.foldl_cons, List.foldl_nil]
  norm_num [c10State, Engine.dummyFood, Engine.dummyCritter, Engine.dummyGenome,
    BASE_GENOME, distE, zeroEnv, ltMin]

/-- C10 witness: the adjacent critter eats food 5; its energy value was
100 and becomes 0, and it leaves every grid cell. -/
theorem seekFood_food_eaten_at_most_once_witness :
    0 < (c10State.fStore 5).energyValue ∧
    ((Engine.seekFood zeroEnv c10State 0).fStore 5).energyValue = 0 := by
  have h := seekFood_food_eaten_at_most_once zeroEnv c10State 0 5 0 c10_scan
    (by norm_num [c10State, Engine.dummyCritter, Engine.dummyGenome, BASE_GENOME])
    (by
      intro j hj
      have hj0 : j ≠ 0 := hj
      show 5 ∉ ((List.replicate 1600 ([] : List ℕ)).set 0 [5]).getD j []
      rw [getD_set_ne _ _ _ _ _ (fun h => hj0 h.symm)]
      rw [getD_replicate_nil 1600 j]
      exact List.not_mem_nil _)
    (by
      show (((List.replicate 1600 ([] : List ℕ)).set 0 [5]).getD 0 []).count 5 ≤ 1
      rw [getD_set_eq _ _ _ _ (by rw [List.length_replicate]; norm_num)]
      simp)
  exact ⟨h.1, h.2.1⟩

end FoodOnceClaim

section FoodCapClaim

lemma pushFoodAt_food_length (st : Engine.EngineState) (x y : ℚ) :
    (Engine.pushFoodAt st x y).food.length = st.food.length + 1 := by
  simp [Engine.pushFoodAt]

lemma pushFoodAt_critters (st : Engine.EngineState) (x y : ℚ) :
    (Engine.pushFoodAt st x y).critters = st.critters := rfl

lemma pushFoodAt_fStore_pos (st : Engine.EngineState) (x y : ℚ)
    (h : ∀ i, 0 < (st.fStore i).energyValue) :
    ∀ i, 0 < ((Engine.pushFoodAt st x y).fStore i).energyValue := by
  intro i
  simp only [Engine.pushFoodAt]
  split
  · norm_num [ENERGY_GAIN_FOOD]
  · exact h i

lemma spawnFoodInZone_food_length (E : Env) (st : Engine.EngineState) (a b : ℚ) :
    (Engine.spawnFoodInZone E st a b).food.length = st.food.length + 1 :=
  pushFoodAt_food_length _ _ _

lemma spawnFoodInZone_critters (E : Env) (st : Engine.EngineState) (a b : ℚ) :
    (Engine.spawnFoodInZone E st a b).critters = st.critters := rfl

lemma spawnFoodInZone_fStore_pos (E : Env) (st : Engine.EngineState) (a b : ℚ)
    (h : ∀ i, 0 < (st.fStore i).energyValue) :
    ∀ i, 0 < ((Engine.spawnFoodInZone E st a b).fStore i).energyValue :=
  pushFoodAt_fStore_pos _ _ _ h

/-- The 35000 live food ids of the at-cap state (kept behind a
definition so proofs only ever reason about its length). -/
def c2Food : List ℕ := List.range MAX_FOOD

lemma c2Food_length : c2Food.length = MAX_FOOD := by
  simp only [c2Food]
  exact List.length_range MAX_FOOD

/-- A state at the food cap: 35000 live food items (all positive
energy), no critters — the configuration the cap-guarded spawns are
meant to protect, satisfying both caps. -/
def c2BadState : Engine.EngineState :=
  { critters := [], food := c2Food,
    cStore := fun _ => Engine.dummyCritter,
    fStore := fun i => { Engine.dummyFood with id := i, energyValue := ENERGY_GAIN_FOOD },
    species := [Engine.rootSpecies], time := 0,
    foodGrid := List.replicate 1600 [], critterGrid := List.replicate 1600 [],
    nextId := MAX_FOOD, rng := 0 }

lemma markExtinctions_food (st : Engine.EngineState) :
    (Engine.markExtinctions st).food = st.food := rfl

/-- At the food cap and with the zero random stream, `growPlants` adds
exactly the two unguarded shoreline spawns and leaves critters and live
food energies alone. -/
lemma growPlants_zero_at_cap (st : Engine.EngineState)
    (hlen : st.food.length = MAX_FOOD)
    (hpos : ∀ i, 0 < (st.fStore i).energyValue) :
    (Engine.growPlants zeroEnv st).food.length = MAX_FOOD + 2 ∧
    (Engine.growPlants zeroEnv st).critters = st.critters ∧
    ∀ i, 0 < ((Engine.growPlants zeroEnv st).fStore i).energyValue := by
  have hfix : iterate (Engine.ambientStep zeroEnv) 10 st = st := by
    apply iterate_fixed
    apply if_neg
    rw [hlen]
    omega
  simp only [Engine.growPlants, hfix]
  norm_num [zeroEnv]
  rw [if_pos (by simp only [spawnFoodInZone_food_length, hlen]; omega)]
  refine ⟨?_, ?_, ?_⟩
  · simp only [spawnFoodInZone_food_length, hlen]
  · simp only [spawnFoodInZone_critters]
  · exact spawnFoodInZone_fStore_pos _ _ _ _
      (spawnFoodInZone_fStore_pos _ _ _ _ hpos)

/-- One full zero-stream tick from an at-cap state with no critters ends
two items above the cap. -/
lemma update_zero_at_cap (st : Engine.EngineState)
    (hlen : st.food.length = MAX_FOOD)
    (hcrit : st.critters = [])
    (hpos : ∀ i, 0 < (st.fStore i).energyValue) :
    (Engine.update zeroEnv st).food.length = MAX_FOOD + 2 := by
  obtain ⟨h1, h2, h3⟩ := growPlants_zero_at_cap { st with time := st.time + 1 }
    hlen hpos
  have hc2 : (Engine.growPlants zeroEnv { st with time := st.time + 1 }).critters
      = [] := h2.trans hcrit
  have hupd : Engine.update zeroEnv st = Engine.markExtinctions
      { (Engine.critterLoop zeroEnv
          (Engine.growPlants zeroEnv { st with time := st.time + 1 }).critters.length
          (Engine.growPlants zeroEnv { st with time := st.time + 1 })) with
        food := (Engine.critterLoop zeroEnv
          (Engine.growPlants zeroEnv { st with time := st.time + 1 }).critters.length
          (Engine.growPlants zeroEnv { st with time := st.time + 1 })).food.filter
            (fun fid => 0 < ((Engine.critterLoop zeroEnv
              (Engine.growPlants zeroEnv { st with time := st.time + 1 }).critters.length
              (Engine.growPlants zeroEnv { st with time := st.time + 1 })).fStore
                fid).energyValue) } := rfl
  rw [hupd, hc2]
  simp only [List.length_nil, Engine.critterLoop, markExtinctions_food]
  rw [List.filter_eq_self.mpr]
  · exact h1
  · intro a ha
    simp only [decide_eq_true_eq]
    exact h3 a

/-- C2 (violation): from a state satisfying both caps, one engine tick
ends with `food.length = MAX_FOOD + 2 > MAX_FOOD` — the two shoreline
`spawnFoodInZone` calls in `growPlants` are not guarded by the cap, so
the claimed invariant `food.length ≤ MAX_FOOD` fails even though
`critters.length ≤ MAX_POPULATION` holds. -/
theorem update_can_exceed_MAX_FOOD :
    c2BadState.food.length ≤ MAX_FOOD ∧
    c2BadState.critters.length ≤ MAX_POPULATION ∧
    (Engine.update zeroEnv c2BadState).food.length = MAX_FOOD + 2 := by
  have hfood0 : c2BadState.food = c2Food := by simp only [c2BadState]
  have hcrit0 : c2BadState.critters = [] := by simp only [c2BadState]
  have hpos0 : ∀ i, 0 < (c2BadState.fStore i).energyValue := by
    intro i
    show (0 : ℚ) < ({ Engine.dummyFood with
      id := i, energyValue := ENERGY_GAIN_FOOD }).energyValue
    norm_num [ENERGY_GAIN_FOOD]
  refine ⟨by rw [hfood0, c2Food_length],
    by rw [hcrit0]; norm_num [MAX_POPULATION], ?_⟩
  exact update_zero_at_cap c2BadState (by rw [hfood0, c2Food_length]) hcrit0 hpos0

end FoodCapClaim

end EvoWorld
